import Mathlib

/-!
Verification of the nebulous.py network protocol core against its
specification.  The Python sources under src/nebulous/game are shallowly
embedded: bytes are naturals below 256, Python ints are Lean integers,
Python floats are modelled as exact rationals, byte streams are a list
with a cursor, and functions that can raise return Option or Except.
-/

set_option maxRecDepth 10000
set_option synthInstance.maxHeartbeats 1000000

/-! ### Byte-level primitives

The Python code serializes through datastream.SerializingStream with
NETWORK_ENDIAN byte order and deserializes through DeserializingStream.
We model the writes as functions producing big-endian byte lists and the
reads as functions on a cursored byte list. -/

/-- Big-endian bytes of a natural, fixed width k (low k bytes of n). -/
def natToBytesBE : Nat → Nat → List Nat
  | 0, _ => []
  | k + 1, n => natToBytesBE k (n / 256) ++ [n % 256]

/-- Big-endian natural from a byte list (int.from_bytes(b, "big")). -/
def natFromBytesBE (bs : List Nat) : Nat :=
  bs.foldl (fun a b => a * 256 + b) 0

/-- int.from_bytes(bs, "big", signed=True): two's complement decode. -/
def intFromBytesBESigned (bs : List Nat) : Int :=
  let u := natFromBytesBE bs
  if u < 2 ^ (8 * bs.length - 1) then (u : Int) else (u : Int) - 2 ^ (8 * bs.length)

/-- A write of a Python int as k big-endian bytes (low k bytes, two's
complement for negatives), as performed by SerializingStream.write_intN. -/
def writeIntBE (k : Nat) (v : Int) : List Nat :=
  natToBytesBE k (v % (2 ^ (8 * k)) : Int).toNat

def write_int8 (v : Int) : List Nat := writeIntBE 1 v

def write_int16 (v : Int) : List Nat := writeIntBE 2 v

def write_int32 (v : Int) : List Nat := writeIntBE 4 v

def write_int64 (v : Int) : List Nat := writeIntBE 8 v

def write_bool (b : Bool) : List Nat := [if b then 1 else 0]

/-- datastream.DeserializingStream: a byte buffer with a read cursor. -/
structure DStream where
  data : List Nat
  pos : Nat
deriving DecidableEq

/-- stream.read(n): the next n bytes, advancing the cursor. -/
def DStream.read (s : DStream) (n : Nat) : List Nat × DStream :=
  ((s.data.drop s.pos).take n, ⟨s.data, s.pos + n⟩)

/-- stream.read_uint8(). -/
def DStream.read_uint8 (s : DStream) : Nat × DStream :=
  (s.data.getD s.pos 0, ⟨s.data, s.pos + 1⟩)

/-- stream.read_int8(): one byte, two's complement signed. -/
def DStream.read_int8 (s : DStream) : Int × DStream :=
  let (b, s1) := s.read_uint8
  (if b < 128 then (b : Int) else (b : Int) - 256, s1)

/-- stream.read_uint16(): two bytes, big endian. -/
def DStream.read_uint16 (s : DStream) : Nat × DStream :=
  let (b0, s1) := s.read_uint8
  let (b1, s2) := s1.read_uint8
  (b0 * 256 + b1, s2)

/-! ### natives.py: MUTF8String -/

/-- Standard UTF-8 encoding of one Unicode code point, as produced by
Python str.encode("utf-8") on a non-surrogate code point. -/
def utf8EncodeChar (c : Nat) : List Nat :=
  if c < 0x80 then [c]
  else if c < 0x800 then [0xC0 ||| (c >>> 6), 0x80 ||| (c &&& 0x3F)]
  else if c < 0x10000 then
    [0xE0 ||| (c >>> 12), 0x80 ||| ((c >>> 6) &&& 0x3F), 0x80 ||| (c &&& 0x3F)]
  else
    [0xF0 ||| (c >>> 18), 0x80 ||| ((c >>> 12) &&& 0x3F),
     0x80 ||| ((c >>> 6) &&& 0x3F), 0x80 ||| (c &&& 0x3F)]

/-- Python s.encode("utf-8") over the string's code points. -/
def utf8Encode (s : List Nat) : List Nat :=
  s.flatMap utf8EncodeChar

/-- natives.MUTF8String: a Python string (list of code points) together
with the stored length field.  from_py_string sets length to the CHARACTER
count len(value), not the encoded byte count. -/
structure MUTF8String where
  length : Nat
  value : List Nat
deriving DecidableEq

def MUTF8String.from_py_string (s : List Nat) : MUTF8String := ⟨s.length, s⟩

/-- MUTF8String.encode: self.length.to_bytes(2, "big") + value.encode("utf-8").
int.to_bytes raises OverflowError when the length does not fit two bytes,
modelled as none. -/
def MUTF8String.encode (m : MUTF8String) : Option (List Nat) :=
  if m.length < 65536 then some (natToBytesBE 2 m.length ++ utf8Encode m.value) else none

/-! ### natives.py: VariableLengthArray -/

structure VariableLengthArray where
  size : Nat
  values : List Int
deriving DecidableEq

/-- VariableLengthArray.encode: raises ValueError("Array is too long") when
the count exceeds 2^(8*size)-1, else writes the count in size big-endian
bytes followed by (value & 0xFF) for each value. -/
def VariableLengthArray.encode (a : VariableLengthArray) : Option (List Nat) :=
  if a.values.length > 2 ^ (8 * a.size) - 1 then none
  else some (natToBytesBE a.size a.values.length ++
    a.values.map (fun v => (v % 256 : Int).toNat))

/-- [stream.read_int8() for _ in range(n)]. -/
def readInt8List : Nat → DStream → List Int × DStream
  | 0, s => ([], s)
  | n + 1, s =>
    let (v, s1) := s.read_int8
    let (vs, s2) := readInt8List n s1
    (v :: vs, s2)

/-- VariableLengthArray.from_stream: the length is decoded SIGNED
(int.from_bytes(..., signed=True)) and the elements are read with
read_int8 (signed bytes); range(L) for negative L is empty, modelled by
Int.toNat. -/
def VariableLengthArray.from_stream (size : Nat) (s : DStream) :
    VariableLengthArray × DStream :=
  let (lenBytes, s1) := s.read size
  let length := intFromBytesBESigned lenBytes
  let (values, s2) := readInt8List length.toNat s1
  (⟨size, values⟩, s2)

/-! ### natives.py: CompressedFloat -/

/-- Python int() applied to a rational: truncation toward zero. -/
def pyInt (q : ℚ) : Int := if 0 ≤ q then ⌊q⌋ else ⌈q⌉

structure CompressedFloat where
  value : ℚ
  max_range : ℚ
deriving DecidableEq

/-- CompressedFloat.compress: int(((value - 0.0) * 65535.0) / (max_range - 0.0)). -/
def CompressedFloat.compress (c : CompressedFloat) : Int :=
  pyInt (((c.value - 0) * 65535) / (c.max_range - 0))

/-- CompressedFloat.compress_1_clamp:
int(((value - min_v) * 255.0) / (max_range - min_v)). -/
def CompressedFloat.compress_1_clamp (c : CompressedFloat) (min_v : ℚ) : Int :=
  pyInt (((c.value - min_v) * 255) / (c.max_range - min_v))

/-- CompressedFloat.decompress:
(((max_range - 0.0) * (value & 0xFFFF)) / 65535.0) + 0.0. -/
def CompressedFloat.decompress (value : Int) (max_range : ℚ) : CompressedFloat :=
  ⟨(((max_range - 0) * ((value % 65536 : Int) : ℚ)) / 65535) + 0, max_range⟩

/-- CompressedFloat.from_stream: decompress(stream.read_uint16(), max_range). -/
def CompressedFloat.from_stream (max_range : ℚ) (s : DStream) :
    CompressedFloat × DStream :=
  let (v, s1) := s.read_uint16
  (CompressedFloat.decompress v max_range, s1)

/-- CompressedFloat.from_3: three bytes assembled big-endian, decoded with
range scale 1.6777215e7 = 16777215. -/
def CompressedFloat.from_3 (max_range : ℚ) (s : DStream) :
    CompressedFloat × DStream :=
  let (b0, s1) := s.read_uint8
  let (b1, s2) := s1.read_uint8
  let (b2, s3) := s2.read_uint8
  let a : Nat := (b0 <<< 16) + (b1 <<< 8) + b2
  (⟨(((max_range - 0) * (a : ℚ)) / 16777215) + 0, max_range⟩, s3)

/-- CompressedFloat.from_1_clamped:
(((max_v - min_v) * (value & 0xFF)) / 255.0) + min_v from one byte. -/
def CompressedFloat.from_1_clamped (min_v max_v : ℚ) (s : DStream) :
    CompressedFloat × DStream :=
  let (v, s1) := s.read_uint8
  (⟨(((max_v - min_v) * ((v % 256 : Nat) : ℚ)) / 255) + min_v, max_v⟩, s1)

/-! ### The javarandom dependency (java.util.Random)

packets.py drives the connect shuffle with javarandom.Random, a faithful
port of java.util.Random.  Spec section 9 pins its contract: a 48-bit LCG
with state update s = (s * 0x5DEECE66D + 0xB) mod 2^48 and the
rejection-sampling nextInt(bound).  The rejection loop is given explicit
fuel; every exit returns u % bound, so the result is in [0, bound) on
every path (Java's loop terminates with probability 1 and the fuel is far
beyond any feasible rejection streak). -/

/-- Modelled from the spec: the javarandom.Random dependency is not part
of the repository; spec section 9 fixes its contract (48-bit LCG state,
scrambled seeding, next/nextInt/nextLong/nextInt(bound)). -/
structure JRand where
  seed : Nat
deriving DecidableEq

/-- java.util.Random(seed): scramble the seed with the LCG multiplier. -/
def JRand.ofSeed (s : Int) : JRand :=
  ⟨(s % (2 ^ 48) : Int).toNat ^^^ 0x5DEECE66D⟩

/-- Cast of an unsigned value to a signed 32-bit Java int. -/
def int32OfNat (n : Nat) : Int :=
  if n % 2 ^ 32 < 2 ^ 31 then ((n % 2 ^ 32 : Nat) : Int)
  else ((n % 2 ^ 32 : Nat) : Int) - 2 ^ 32

/-- Random.next(bits): advance the LCG, return the top bits as a Java int. -/
def JRand.next (r : JRand) (bits : Nat) : Int × JRand :=
  let s := (r.seed * 0x5DEECE66D + 0xB) % 2 ^ 48
  (int32OfNat (s >>> (48 - bits)), ⟨s⟩)

/-- Random.nextInt(): next(32). -/
def JRand.nextInt (r : JRand) : Int × JRand := r.next 32

/-- Random.nextLong(): ((long)next(32) << 32) + next(32). -/
def JRand.nextLong (r : JRand) : Int × JRand :=
  let (hi, r1) := r.next 32
  let (lo, r2) := r1.next 32
  (hi * 2 ^ 32 + lo, r2)

/-- The rejection loop of Random.nextInt(bound): while u - u % bound + m
overflows a 32-bit int, redraw u = next(31); the Java overflow test
u - (u % bound) + m < 0 is exactly u - u % bound + (bound-1) >= 2^31. -/
def nextIntLoop : Nat → Nat → Nat → JRand → Int × JRand
  | 0, bound, u, r => (((u % bound : Nat) : Int), r)
  | fuel + 1, bound, u, r =>
    if u - u % bound + (bound - 1) < 2 ^ 31 then (((u % bound : Nat) : Int), r)
    else
      let (v, r1) := r.next 31
      nextIntLoop fuel bound v.toNat r1

/-- Random.nextInt(bound) for bound >= 1: power-of-two fast path
(bound * next(31)) >> 31, otherwise rejection sampling. -/
def JRand.nextIntBound (r : JRand) (bound : Nat) : Int × JRand :=
  let (r31, r1) := r.next 31
  let u := r31.toNat
  let m := bound - 1
  if bound &&& m == 0 then ((((bound * u) >>> 31 : Nat) : Int), r1)
  else nextIntLoop 1000000 bound u r1

/-! ### packets.py: ConnectRequest3.write (lines 705-781)

The packet dataclass; enum-valued fields are carried as the Int that
write_int8/write_int16 serializes (the .value of the Python enum).
request_id, rng_seed, game_version, client_id and the timestamp are not
dataclass fields; write obtains them from the client and the clock, so the
embedding of write takes them as arguments.  APP_VERSION comes from
nebulous.game.constants which is absent from src/; per spec section 6 the
game version is a host-supplied u16 constant, so it too is a parameter. -/

structure ConnectRequest3 where
  game_mode : Int
  game_difficulty : Int
  game_id : Int
  ticket : MUTF8String
  online_mode : Int
  mayhem : Bool
  skin1 : Int
  eject_skin : Int
  «alias» : MUTF8String
  custom_skin : Int
  alias_colors : VariableLengthArray
  pet_id : Int
  blob_color : Int
  pet_name : MUTF8String
  hat_type : Int
  custom_pet : Int
  halo_type : Int
  pet_id2 : Int
  pet_name2 : MUTF8String
  custom_pet2 : Int
  custom_particle : Int
  particle_type : Int
  alias_font : Int
  level_colors : VariableLengthArray
  alias_anim : Int
  skin2 : Int
  skin_interpolation_rate : CompressedFloat
  custom_skin2 : Int
  sc_bits : VariableLengthArray
deriving DecidableEq

/-- PacketType.CONNECT_REQUEST_3.value. -/
def connectRequest3Type : Int := 118

/-- The stream contents of ConnectRequest3.write before the shuffle, in
exact write order (packets.py lines 709-753).  none when an MUTF8String or
VariableLengthArray encode raises. -/
def serializeConnectRequest3 (pkt : ConnectRequest3)
    (clientId rngSeed timestamp appVersion : Int) : Option (List Nat) := do
  let ticketB ← pkt.ticket.encode
  let aliasB ← pkt.«alias».encode
  let aliasColorsB ← pkt.alias_colors.encode
  let petNameB ← pkt.pet_name.encode
  let petName2B ← pkt.pet_name2.encode
  let levelColorsB ← pkt.level_colors.encode
  let scBitsB ← pkt.sc_bits.encode
  return write_int8 connectRequest3Type ++ write_int32 0 ++ write_int64 rngSeed
    ++ write_int16 appVersion ++ write_int32 clientId
    ++ write_int8 pkt.game_mode ++ write_int8 pkt.game_difficulty
    ++ write_int32 pkt.game_id ++ ticketB ++ write_int8 pkt.online_mode
    ++ write_bool pkt.mayhem ++ write_int16 pkt.skin1 ++ write_int8 pkt.eject_skin
    ++ aliasB ++ write_int32 pkt.custom_skin ++ aliasColorsB
    ++ write_int8 pkt.pet_id ++ write_int32 pkt.blob_color ++ petNameB
    ++ write_int8 pkt.hat_type ++ write_int32 pkt.custom_pet
    ++ write_int8 pkt.halo_type ++ write_int8 pkt.pet_id2 ++ petName2B
    ++ write_int32 pkt.custom_pet2 ++ write_int32 pkt.custom_particle
    ++ write_int8 pkt.particle_type ++ write_int8 pkt.alias_font ++ levelColorsB
    ++ write_int8 pkt.alias_anim ++ write_int16 pkt.skin2
    ++ write_int16 pkt.skin_interpolation_rate.compress
    ++ write_int32 pkt.custom_skin2 ++ write_int64 timestamp ++ scBitsB

/-- One swap of the shuffle body: a = p[x]; p[x] = p[y]; p[y] = a. -/
def swapAt (l : List Nat) (x y : Nat) : List Nat :=
  let a := l.getD x 0
  let b := l.getD y 0
  (l.set x b).set y a

/-- The first loop of the shuffle: for i in range(len-14, 0, -1) collect
(i, server_rng.nextInt(i + 1)); called with hi = len - 14. -/
def idxPairs : Nat → JRand → List (Nat × Nat) × JRand
  | 0, r => ([], r)
  | i + 1, r =>
    let (j, r1) := r.nextIntBound (i + 2)
    let (rest, r2) := idxPairs i r1
    ((i + 1, j.toNat) :: rest, r2)

/-- The second loop of the shuffle: swap packet[pair[0]+13] and
packet[pair[1]+13] for each collected pair in order. -/
def applyPairs (l : List Nat) (pairs : List (Nat × Nat)) : List Nat :=
  pairs.foldl (fun bs p => swapAt bs (p.1 + 13) (p.2 + 13)) l

/-- ConnectRequest3.write: serialize, shuffle everything past offset 13
with the server RNG seeded from rng_seed, then check the 13-byte header
(type byte, four zero bytes of public_id, big-endian rng_seed); a failed
check raises ValueError("Packet header has been corrupted").  For the
i64 range of rng_seed, rng_seed.to_bytes(8, "big", signed=True) equals
write_int64 rng_seed. -/
def ConnectRequest3.write (pkt : ConnectRequest3)
    (clientId rngSeed timestamp appVersion : Int) : Except String (List Nat) :=
  match serializeConnectRequest3 pkt clientId rngSeed timestamp appVersion with
  | none => .error "encode failed"
  | some packetBytes =>
    let server_rng := JRand.ofSeed rngSeed
    let (indices, _) := idxPairs (packetBytes.length - 14) server_rng
    let shuffled := applyPairs packetBytes indices
    if shuffled.getD 0 0 ≠ 118 then .error "Packet header has been corrupted"
    else if (shuffled.drop 1).take 4 ≠ [0, 0, 0, 0] then
      .error "Packet header has been corrupted"
    else if (shuffled.drop 5).take 8 ≠ write_int64 rngSeed then
      .error "Packet header has been corrupted"
    else .ok shuffled

/-- The shuffle as the spec states it: for i from n-14 down to 1, draw
j = nextInt(i+1) and immediately swap positions i+13 and j+13. -/
def specShuffle : Nat → JRand → List Nat → List Nat
  | 0, _, l => l
  | i + 1, r, l =>
    let (j, r1) := r.nextIntBound (i + 2)
    specShuffle i r1 (swapAt l (i + 1 + 13) (j.toNat + 13))

/-! ### models: gameobjects.py, apiobjects.py, netobjects.py

Python strings are lists of code points; enum-valued fields carry the
enum's Int value; floats are rationals. -/

structure PlayerName where
  name : List Nat
  font : Int
  colors : List Int
  animation : Int
deriving DecidableEq

structure GamePet where
  x : ℚ
  y : ℚ
  pet_type : Int
  level : Int
  name : List Nat
  custom_skin : Int
deriving DecidableEq

structure Clan where
  name : List Nat
  colors : List Int
  id : Int
  coins : Int
deriving DecidableEq

structure ClanMember where
  clan : Clan
  can_start_clan_war : Bool
  can_join_clan_war : Bool
  can_upload_clan_skin : Bool
  can_set_clan_motd : Bool
  clan_role : Int
  effective_clan_role : Int
  can_self_promote : Bool
deriving DecidableEq

structure GamePlayer where
  x : ℚ
  y : ℚ
  name : PlayerName
  level : Int
  account_id : Int
  index : Int
  skin : Int
  skin2 : Int
  halo : Int
  hat : Int
  eject_skin : Int
  particle : Int
  pet : GamePet
  pet2 : GamePet
  custom_skin : Int
  custom_skin2 : Int
  custom_particle : Int
  skin_interpolation_rate : ℚ
  blob_color : Int
  team_id : Int
  clan_member : ClanMember
  click_type : Int
  level_colors : List Int
deriving DecidableEq

structure GamePlayerMass where
  x : ℚ
  y : ℚ
  eject_id : Int
  mass : ℚ
deriving DecidableEq

structure GameDot where
  x : ℚ
  y : ℚ
  dot_id : Int
deriving DecidableEq

structure GameItem where
  x : ℚ
  y : ℚ
  item_id : Int
  item_type : Int
deriving DecidableEq

structure NetPlayer where
  player_id : Int
  skin_id : Int
  eject_skin_id : Int
  custom_skin_id : Int
  custom_pet_id : Int
  pet_id : Int
  pet_level : Int
  pet_name : MUTF8String
  hat_id : Int
  halo_id : Int
  pet_id2 : Int
  pet_level2 : Int
  pet_name2 : MUTF8String
  custom_pet_id2 : Int
  custom_particle_id : Int
  particle_id : Int
  level_colors : VariableLengthArray
  name_animation_id : Int
  skin_id2 : Int
  skin_interpolation_rate : CompressedFloat
  custom_skin_id2 : Int
  blob_color : Int
  team_id : Int
  player_name : MUTF8String
  font_id : Int
  alias_colors : VariableLengthArray
  account_id : Int
  player_level : Int
  clan_name : MUTF8String
  clan_colors : VariableLengthArray
  clan_role : Int
  click_type : Int
deriving DecidableEq

structure NetPlayerEject where
  eject_id : Int
  xpos : CompressedFloat
  ypos : CompressedFloat
  mass : CompressedFloat
deriving DecidableEq

structure NetGameDot where
  dot_id : Int
  xpos : CompressedFloat
  ypos : CompressedFloat
deriving DecidableEq

structure NetGameItem where
  item_id : Int
  item_type : Int
  xpos : CompressedFloat
  ypos : CompressedFloat
deriving DecidableEq

/-- packets.GameData (the decoded GAME_DATA packet dataclass). -/
structure GameData where
  public_id : Int
  map_size : ℚ
  player_count : Int
  eject_count : Int
  dot_id_offset : Int
  dot_count : Int
  item_id_offset : Int
  item_count : Int
  player_objects : List NetPlayer
  eject_objects : List NetPlayerEject
  dot_objects : List NetGameDot
  item_objects : List NetGameItem
deriving DecidableEq

/-- Modelled from the spec: the GameSize enum is imported from
nebulous.game.enums in game/__init__.py and gameevents.py but is absent
from src/enums.py.  Per spec section 3 (the world mirror records the
current map_size) and section 4.C (the event codec uses the mirrored
map_size as its range), it stores the GAME_DATA map size and
to_map_size yields it back. -/
structure GameSize where
  size : ℚ
deriving DecidableEq

def GameSize.from_map_size (m : ℚ) : GameSize := ⟨m⟩

def GameSize.to_map_size (g : GameSize) : ℚ := g.size

/-- gameobjects.GameWorld.  map_size is not a dataclass field in the
source; it is first assigned by on_game_data (reading it before that
raises AttributeError), hence the Option. -/
structure GameWorld where
  players : List GamePlayer
  ejects : List GamePlayerMass
  dots : List GameDot
  items : List GameItem
  map_size : Option GameSize
deriving DecidableEq

/-! ### game/__init__.py: InternalCallbacks.on_game_data (lines 78-172)

The default ClientCallbacks are identity on the packet and player, so the
callback layer adds nothing to the state.  The loop body converts each
NetPlayer to a GamePlayer exactly as the constructor call does. -/

/-- The GamePlayer built for one NetPlayer in the on_game_data loop. -/
def toGamePlayer (p : NetPlayer) : GamePlayer :=
  { x := 0
    y := 0
    name := ⟨p.player_name.value, p.font_id, p.alias_colors.values, p.name_animation_id⟩
    level := p.player_level
    account_id := p.account_id
    index := p.player_id
    skin := p.skin_id
    skin2 := p.skin_id2
    halo := p.halo_id
    hat := p.hat_id
    eject_skin := p.eject_skin_id
    particle := p.particle_id
    pet := ⟨0, 0, p.pet_id, p.pet_level, p.pet_name.value, p.custom_pet_id⟩
    pet2 := ⟨0, 0, p.pet_id2, p.pet_level2, p.pet_name2.value, p.custom_pet_id2⟩
    custom_skin := p.custom_skin_id
    custom_skin2 := p.custom_skin_id2
    custom_particle := p.custom_particle_id
    skin_interpolation_rate := p.skin_interpolation_rate.value
    blob_color := p.blob_color
    team_id := p.team_id
    clan_member :=
      ⟨⟨p.clan_name.value, p.clan_colors.values, 0, -1⟩,
        false, false, false, false, p.clan_role, p.clan_role, false⟩
    click_type := p.click_type
    level_colors := p.level_colors.values }

/-- The player loop of on_game_data: append each converted player to the
mirror and record it as client.game_player when its name matches the
session's random alias. -/
def onGameDataPlayers (random_alias : List Nat) :
    List NetPlayer → List GamePlayer → Option GamePlayer →
    List GamePlayer × Option GamePlayer
  | [], players, gp => (players, gp)
  | p :: rest, players, gp =>
    let g := toGamePlayer p
    let gp2 := if p.player_name.value = random_alias then some g else gp
    onGameDataPlayers random_alias rest (players ++ [g]) gp2

/-- InternalCallbacks.on_game_data: append the packet's players, dots,
ejects and items to the world mirror (the source never clears the lists)
and set game_world.map_size from the packet. -/
def on_game_data (random_alias : List Nat) (world : GameWorld)
    (game_player : Option GamePlayer) (packet : GameData) :
    GameWorld × Option GamePlayer :=
  let (players2, gp2) :=
    onGameDataPlayers random_alias packet.player_objects world.players game_player
  let dots2 := world.dots ++
    packet.dot_objects.map (fun d => GameDot.mk d.xpos.value d.ypos.value d.dot_id)
  let ejects2 := world.ejects ++
    packet.eject_objects.map
      (fun e => GamePlayerMass.mk e.xpos.value e.ypos.value e.eject_id e.mass.value)
  let items2 := world.items ++
    packet.item_objects.map
      (fun i => GameItem.mk i.xpos.value i.ypos.value i.item_id i.item_type)
  ({ players := players2, ejects := ejects2, dots := dots2, items := items2,
     map_size := some (GameSize.from_map_size packet.map_size) }, gp2)

/-! ### packets.py: the client-to-server writers -/

/-- The exact double value of Python math.pi. -/
def mathPi : ℚ := 884279719003555 / 281474976710656

/-- packets.Control (the fields of the dataclass plus the packet_type
carried by the Packet base; heartbeats construct it with
PacketType.CONTROL = 2). -/
structure Control where
  packet_type : Int
  angle : ℚ
  speed : ℚ
  flags : Int
  aspect_ratio : ℚ
deriving DecidableEq

/-- packets.GameChatMessage. -/
structure GameChatMessage where
  packet_type : Int
  «alias» : MUTF8String
  message : MUTF8String
  alias_colors : VariableLengthArray
  show_broadcast_bubble : Bool
  alias_font : Int
  account_id : Int
deriving DecidableEq

/-- GameChatMessage.write (packets.py lines 379-405). -/
def GameChatMessage.write (m : GameChatMessage) (public_id client_id : Int) :
    Option (List Nat) := do
  let aliasB ← m.«alias».encode
  let messageB ← m.message.encode
  let colorsB ← m.alias_colors.encode
  return write_int8 m.packet_type ++ write_int32 public_id ++ aliasB ++ messageB
    ++ write_int32 (-1) ++ write_bool false ++ write_int64 0 ++ colorsB
    ++ write_bool m.show_broadcast_bubble ++ write_int8 m.alias_font
    ++ write_int32 client_id ++ write_bool false ++ write_bool false

/-- packets.ClanChatMessage (the receive-only fields carry their
dataclass defaults on send). -/
structure ClanChatMessage where
  packet_type : Int
  message : MUTF8String
  clan_role : Int
  account_id : Int
  «alias» : Option MUTF8String
  alias_colors : Option VariableLengthArray
deriving DecidableEq

/-- ClanChatMessage.write (packets.py lines 464-485). -/
def ClanChatMessage.write (m : ClanChatMessage) (public_id client_id : Int) :
    Option (List Nat) := do
  let blankB ← (MUTF8String.from_py_string []).encode
  let messageB ← m.message.encode
  return write_int8 m.packet_type ++ write_int32 public_id ++ blankB ++ messageB
    ++ write_int8 0 ++ write_int32 (-1) ++ write_int64 0 ++ write_int8 0
    ++ write_int32 client_id ++ write_bool false

/-- The packets LobbyChat puts on client.packet_queue (the only producers
of queued packets in the source). -/
inductive QueuedPacket where
  | gameChat (m : GameChatMessage)
  | clanChat (m : ClanChatMessage)
deriving DecidableEq

def QueuedPacket.write (q : QueuedPacket) (public_id client_id : Int) :
    Option (List Nat) :=
  match q with
  | .gameChat m => m.write public_id client_id
  | .clanChat m => m.write public_id client_id

/-- models/client.py: the client attributes the packet writers and the
send/receive loops touch, plus the trace of datagrams handed to the
socket (oldest first). -/
structure ClientSt where
  server_public_id : Int
  server_private_id : Int
  server_client_id : Int
  server_ip : List Nat
  random_alias : List Nat
  screen_aspect : ℚ
  control_ticks : Nat
  game_player : Option GamePlayer
  game_world : GameWorld
  game_data_done : Bool
  gamedata_received : Nat
  packet_queue : List QueuedPacket
  stopped : Bool
  sent : List (List Nat)
deriving DecidableEq

/-- Control.write (packets.py lines 537-560): none models the
AttributeError raised by client.game_player.index when game_player is
still None (nothing is sent and control_ticks is not advanced, since the
raise happens before the tick update line).  On success the tick counter
advances by (control_ticks + 1) % 0xff — modulo 255, not 256. -/
def Control.write (pkt : Control) (c : ClientSt) : Option (List Nat × ClientSt) :=
  match c.game_player with
  | none => none
  | some gp =>
    let angle := CompressedFloat.mk pkt.angle (mathPi * 2)
    let speed := CompressedFloat.mk pkt.speed 1
    let aspect_ratio := CompressedFloat.mk pkt.aspect_ratio 3
    let bytes := write_int8 pkt.packet_type ++ write_int32 c.server_public_id
      ++ write_int16 angle.compress ++ write_int8 (speed.compress_1_clamp 0)
      ++ write_int8 (c.control_ticks : Int) ++ write_int8 pkt.flags
      ++ write_int8 gp.index ++ write_int32 c.server_client_id
      ++ write_int8 (aspect_ratio.compress_1_clamp 1)
    some (bytes, { c with control_ticks := (c.control_ticks + 1) % 0xff })

/-- packets.KeepAlive. -/
structure KeepAlive where
  packet_type : Int
  public_id : Int
  private_id : Int
  server_ip : List Nat
  client_id : Int
deriving DecidableEq

/-- KeepAlive.write: the one little-endian field of the protocol, the
server ip is written reversed (self.server_ip[::-1]). -/
def KeepAlive.write (p : KeepAlive) : List Nat :=
  write_int8 p.packet_type ++ write_int32 p.public_id ++ write_int32 p.private_id
    ++ p.server_ip.reverse ++ write_int32 p.client_id

/-- packets.Disconnect. -/
structure Disconnect where
  packet_type : Int
  public_id : Int
  private_id : Int
  client_id : Int
deriving DecidableEq

def Disconnect.write (p : Disconnect) : List Nat :=
  write_int8 p.packet_type ++ write_int32 p.public_id ++ write_int32 p.private_id
    ++ write_int32 p.client_id


/-! ### models/client.py: the session runtime as a transition system

The two cooperative loops (net_send_loop, net_recv_loop), LobbyChat's
enqueues and Client.stop are modelled as atomic steps on ClientSt; a
session is a fold of steps from the post-handshake initial state.  Time
(the 500 ms heartbeat interval) is abstracted into the nondeterministic
choice of when the heartbeat step fires. -/

/-- One received datagram, classified the way net_recv_loop sees it: a
GAME_DATA datagram is carried in decoded form (GameData.read parses it
and hands it to on_game_data); any other datagram only matters through
its leading type byte.  A type byte of 75 is represented by the gameData
constructor, never by other. -/
inductive Dgram where
  | gameData (g : GameData)
  | other (t : Nat)
deriving DecidableEq

/-- Client.stop(): set the stop event and send one best-effort
DISCONNECT (PacketType.DISCONNECT = 7). -/
def stopClient (s : ClientSt) : ClientSt :=
  { s with stopped := true,
           sent := s.sent ++
             [Disconnect.write
               ⟨7, s.server_public_id, s.server_private_id, s.server_client_id⟩] }

/-- One iteration of net_recv_loop (client.py lines 543-573) on one
datagram.  PacketType values are exactly 0..119, so the
value2member_map membership test is t <= 119.  While the gate is unset, a
GAME_DATA datagram only bumps the counter; any other KNOWN type sets the
gate.  Registered handlers without an implemented read
(CONTROL=2, KEEP_ALIVE=3, DISCONNECT=7, CONNECT_REQUEST_3=118) raise
NotImplementedError, which escapes the loop and runs stop() in the
finally block; CONNECT_RESULT_2=1 and the chat packets 8, 9 parse and
dispatch without touching the modelled state; unregistered types are
logged and dropped. -/
def recvStep (s : ClientSt) (d : Dgram) : ClientSt :=
  if s.stopped then s
  else
    match d with
    | .gameData g =>
      let s1 :=
        if ¬s.game_data_done then
          { s with gamedata_received := s.gamedata_received + 1 }
        else s
      { s1 with
        game_world := (on_game_data s1.random_alias s1.game_world s1.game_player g).1,
        game_player := (on_game_data s1.random_alias s1.game_world s1.game_player g).2 }
    | .other t =>
      if 119 < t then s
      else if t = 75 then s
      else
        let s1 := if ¬s.game_data_done then { s with game_data_done := true } else s
        if t = 2 ∨ t = 3 ∨ t = 7 ∨ t = 118 then stopClient s1 else s1

/-- The heartbeat branch of net_send_loop (client.py lines 391-427): when
the gate is set and the queue is empty, send a KEEP_ALIVE (type 3) and
then a CONTROL built with angle 0, speed 0, ControlFlags.NONE and the
screen aspect ratio.  When game_player is still None, Control.write
raises before anything of the control packet reaches the socket and the
loop's finally block runs stop(). -/
def heartbeatStep (s : ClientSt) : ClientSt :=
  if s.stopped ∨ ¬s.game_data_done ∨ ¬s.packet_queue.isEmpty then s
  else
    let ka := KeepAlive.write
      ⟨3, s.server_public_id, s.server_private_id, s.server_ip, s.server_client_id⟩
    let s1 := { s with sent := s.sent ++ [ka] }
    match Control.write ⟨2, 0, 0, 0, s.screen_aspect⟩ s1 with
    | some (bytes, s2) => { s2 with sent := s2.sent ++ [bytes] }
    | none => stopClient s1

/-- The queue branch of net_send_loop (lines 428-432): pop one packet and
send its bytes; an encode error raised from write escapes the loop and
runs stop(). -/
def sendQueuedStep (s : ClientSt) : ClientSt :=
  if s.stopped ∨ ¬s.game_data_done then s
  else
    match s.packet_queue with
    | [] => s
    | q :: rest =>
      match q.write s.server_public_id s.server_client_id with
      | some bytes => { s with packet_queue := rest, sent := s.sent ++ [bytes] }
      | none => stopClient { s with packet_queue := rest }

/-- LobbyChat.send_game_message: enqueue a GameChatMessage built with
PacketType.GAME_CHAT_MESSAGE = 8 (success path of the signed-in check). -/
def sendGameMessageStep (s : ClientSt) («alias» message : List Nat)
    (colors : List Int) (bubble : Bool) (font : Int) : ClientSt :=
  { s with packet_queue := s.packet_queue ++
      [.gameChat ⟨8, MUTF8String.from_py_string «alias»,
        MUTF8String.from_py_string message, ⟨1, colors⟩, bubble, font, -1⟩] }

/-- LobbyChat.send_clan_message: enqueue a ClanChatMessage built with
PacketType.CLAN_CHAT_MESSAGE = 9 and the dataclass defaults. -/
def sendClanMessageStep (s : ClientSt) (message : List Nat) : ClientSt :=
  { s with packet_queue := s.packet_queue ++
      [.clanChat ⟨9, MUTF8String.from_py_string message, 0, -1, none, none⟩] }

inductive SessionAct where
  | recv (d : Dgram)
  | heartbeat
  | sendQueued
  | sendGameMessage («alias» message : List Nat) (colors : List Int)
      (bubble : Bool) (font : Int)
  | sendClanMessage (message : List Nat)
  | stop
deriving DecidableEq

def sessionStep (s : ClientSt) : SessionAct → ClientSt
  | .recv d => recvStep s d
  | .heartbeat => heartbeatStep s
  | .sendQueued => sendQueuedStep s
  | .sendGameMessage a m c b f => sendGameMessageStep s a m c b f
  | .sendClanMessage m => sendClanMessageStep s m
  | .stop => if s.stopped then s else stopClient s

def sessionRun (s : ClientSt) (acts : List SessionAct) : ClientSt :=
  acts.foldl sessionStep s

/-- The client state right after a successful handshake, before the first
datagram of the joined game: empty world, no local player, gate unset,
control tick counter 0, nothing sent by the loops yet. -/
def initClient (publicId privateId clientId : Int) (ip random_alias : List Nat)
    (aspect : ℚ) : ClientSt :=
  { server_public_id := publicId
    server_private_id := privateId
    server_client_id := clientId
    server_ip := ip
    random_alias := random_alias
    screen_aspect := aspect
    control_ticks := 0
    game_player := none
    game_world := ⟨[], [], [], [], none⟩
    game_data_done := false
    gamedata_received := 0
    packet_queue := []
    stopped := false
    sent := [] }

/-! ### models/gameevents.py: RadiationCloudEvent.read, BRBoundsEvent.read

GameEventType is imported from nebulous.game.enums but is absent from
src/enums.py, so the expected type code is a parameter (modelled from the
spec, which fixes the layout but not the code values).  Both readers take
the mirrored world map size (client.game_world.map_size), calling
to_map_size on it as the source does. -/

structure RadiationCloudEvent where
  event_type : Int
  player_id : Int
  x_pos : ℚ
  y_pos : ℚ
  time_remaining : ℚ
deriving DecidableEq

/-- RadiationCloudEvent.read (gameevents.py lines 909-934): type byte,
player byte, then x, y with CompressedFloat.from_stream at the current
map size and the remaining time with from_stream at range 16.0; a type
byte other than RADIATION_CLOUD raises ValueError (none). -/
def RadiationCloudEvent.read (radiationCloudCode : Int) (world_map_size : GameSize)
    (s : DStream) : Option (RadiationCloudEvent × DStream) :=
  let (event_type, s1) := s.read_int8
  if event_type ≠ radiationCloudCode then none
  else
    let current_map_size := world_map_size.to_map_size
    let (player_id, s2) := s1.read_int8
    let (x_pos, s3) := CompressedFloat.from_stream current_map_size s2
    let (y_pos, s4) := CompressedFloat.from_stream current_map_size s3
    let (time_remaining, s5) := CompressedFloat.from_stream 16 s4
    some (⟨radiationCloudCode, player_id, x_pos.value, y_pos.value,
      time_remaining.value⟩, s5)

structure BRBoundsEvent where
  event_type : Int
  bounds_left : ℚ
  bounds_top : ℚ
  bounds_right : ℚ
  bounds_bottom : ℚ
  lim_bounds_left : ℚ
  lim_bounds_top : ℚ
  lim_bounds_right : ℚ
  lim_bounds_bottom : ℚ
deriving DecidableEq

/-- BRBoundsEvent.read (gameevents.py lines 1019-1054): type byte, then
the eight bounds each with CompressedFloat.from_stream at the current map
size. -/
def BRBoundsEvent.read (brBoundsCode : Int) (world_map_size : GameSize)
    (s : DStream) : Option (BRBoundsEvent × DStream) :=
  let (event_type, s1) := s.read_int8
  if event_type ≠ brBoundsCode then none
  else
    let current_map_size := world_map_size.to_map_size
    let (bl, s2) := CompressedFloat.from_stream current_map_size s1
    let (bt, s3) := CompressedFloat.from_stream current_map_size s2
    let (br, s4) := CompressedFloat.from_stream current_map_size s3
    let (bb, s5) := CompressedFloat.from_stream current_map_size s4
    let (ll, s6) := CompressedFloat.from_stream current_map_size s5
    let (lt, s7) := CompressedFloat.from_stream current_map_size s6
    let (lr, s8) := CompressedFloat.from_stream current_map_size s7
    let (lb, s9) := CompressedFloat.from_stream current_map_size s8
    some (⟨brBoundsCode, bl.value, bt.value, br.value, bb.value,
      ll.value, lt.value, lr.value, lb.value⟩, s9)

/-! ### Iterated CONTROL emission (for the tick-counter claims)

net_send_loop emits CONTROL packets through Control.write, which owns the
tick counter; the client state after n heartbeat controls and the bytes
of the n-th control are read off by iterating Control.write. -/

/-- The heartbeat CONTROL packet of net_send_loop: angle 0, speed 0,
ControlFlags.NONE, the configured aspect ratio. -/
def heartbeatControl (aspect : ℚ) : Control := ⟨2, 0, 0, 0, aspect⟩

/-- The client state after n successive heartbeat CONTROL writes. -/
def clientAfterControls (c : ClientSt) : Nat → ClientSt
  | 0 => c
  | n + 1 =>
    match Control.write (heartbeatControl c.screen_aspect) (clientAfterControls c n) with
    | some (_, c2) => c2
    | none => clientAfterControls c n

/-- The bytes of the (n+1)-st emitted CONTROL packet (0-indexed). -/
def nthControlBytes (c : ClientSt) (n : Nat) : Option (List Nat) :=
  (Control.write (heartbeatControl c.screen_aspect) (clientAfterControls c n)).map
    Prod.fst

/-- The tick-counter byte of the n-th emitted CONTROL packet: offset 8
(type, public_id, angle, speed precede it). -/
def nthControlTick (c : ClientSt) (n : Nat) : Nat :=
  ((nthControlBytes c n).getD []).getD 8 0

/-! ### Shared byte-level lemmas -/

theorem natToBytesBE_length (k n : Nat) : (natToBytesBE k n).length = k := by
  induction k generalizing n with
  | zero => rfl
  | succ k ih => simp [natToBytesBE, ih]

theorem pow256_eq (k : Nat) : (256 : Nat) ^ k = 2 ^ (8 * k) := by
  rw [show (256 : Nat) = 2 ^ 8 from rfl, ← pow_mul]

theorem natFromBytesBE_append_one (bs : List Nat) (b : Nat) :
    natFromBytesBE (bs ++ [b]) = natFromBytesBE bs * 256 + b := by
  simp [natFromBytesBE, List.foldl_append]

theorem natFromBytesBE_natToBytesBE (k n : Nat) :
    natFromBytesBE (natToBytesBE k n) = n % 256 ^ k := by
  induction k generalizing n with
  | zero => simp [natToBytesBE, natFromBytesBE, Nat.mod_one]
  | succ k ih =>
    rw [natToBytesBE, natFromBytesBE_append_one, ih, pow_succ, mul_comm ((256 : Nat) ^ k) 256,
      Nat.mod_mul]
    ring

theorem intFromBytesBESigned_natToBytesBE (k n : Nat) (h : n < 2 ^ (8 * k - 1)) :
    intFromBytesBESigned (natToBytesBE k n) = n := by
  have hlen : (natToBytesBE k n).length = k := natToBytesBE_length k n
  have hu : natFromBytesBE (natToBytesBE k n) = n := by
    rw [natFromBytesBE_natToBytesBE, pow256_eq]
    exact Nat.mod_eq_of_lt (lt_of_lt_of_le h (Nat.pow_le_pow_right (by norm_num) (by omega)))
  simp only [intFromBytesBESigned, hlen, hu]
  rw [if_pos (by exact_mod_cast h)]

theorem getD_eq_headD_drop (l : List Nat) (n : Nat) :
    l.getD n 0 = (l.drop n).headD 0 := by
  induction l generalizing n with
  | nil => simp
  | cons a t ih =>
    cases n with
    | zero => simp
    | succ m => simp only [List.getD_cons_succ, List.drop_succ_cons]; exact ih m

theorem readInt8List_maps (vs : List Int) (h : ∀ v ∈ vs, 0 ≤ v ∧ v < 128) :
    ∀ (bs : List Nat) (p : Nat) (rest : List Nat),
      bs.drop p = vs.map (fun v => (v % 256 : Int).toNat) ++ rest →
      readInt8List vs.length ⟨bs, p⟩ = (vs, ⟨bs, p + vs.length⟩) := by
  induction vs with
  | nil => intro bs p rest _; simp [readInt8List]
  | cons v vs ih =>
    intro bs p rest hdrop
    have hv := h v (by simp)
    have hvs : ∀ w ∈ vs, 0 ≤ w ∧ w < 128 := fun w hw => h w (by simp [hw])
    have hemod : v % (256 : Int) = v := Int.emod_eq_of_lt hv.1 (by omega)
    have hbyte : bs.getD p 0 = v.toNat := by
      rw [getD_eq_headD_drop, hdrop]
      simp [hemod]
    have hlt : v.toNat < 128 := by omega
    have hdrop1 : bs.drop (p + 1) = vs.map (fun v => (v % 256 : Int).toNat) ++ rest := by
      have : bs.drop (p + 1) = (bs.drop p).drop 1 := by
        rw [List.drop_drop]
      rw [this, hdrop]
      simp
    have hrec := ih hvs bs (p + 1) rest hdrop1
    simp only [readInt8List, DStream.read_int8, DStream.read_uint8, hbyte]
    rw [if_pos hlt, hrec]
    have hv2 : ((v.toNat : Nat) : Int) = v := Int.toNat_of_nonneg hv.1
    simp only [Prod.mk.injEq, List.cons.injEq, DStream.mk.injEq, hv2, List.length_cons]
    refine ⟨by simp, by simp, by omega⟩

/-! ### C4: VariableLengthArray round-trip -/

/-- C4 counterexample: the claim's own instance VLA(size=1, values=[0xAA, 0xBB])
encodes to 02 AA BB, but from_stream reads the elements with the SIGNED
read_int8, returning [-86, -69], not [0xAA, 0xBB]: decode(encode(p)) != p
for byte values at or above 0x80. -/
theorem vla_roundtrip_fails_on_high_bytes :
    (VariableLengthArray.mk 1 [0xAA, 0xBB]).encode = some [0x02, 0xAA, 0xBB] ∧
    (VariableLengthArray.from_stream 1 ⟨[0x02, 0xAA, 0xBB], 0⟩).1 =
      VariableLengthArray.mk 1 [-86, -69] ∧
    VariableLengthArray.mk 1 [-86, -69] ≠ VariableLengthArray.mk 1 [0xAA, 0xBB] := by
  refine ⟨by decide, by decide, by decide⟩

/-- C4 (amended): for size 1 or 2, values all in 0..0x7F and a count below
2^(8*size-1), from_stream inverts encode exactly (and consumes exactly the
encoded bytes); the claim's concrete encodings hold as stated. -/
theorem vla_roundtrip_low_values :
    (∀ a : VariableLengthArray, a.size = 1 ∨ a.size = 2 →
      (∀ v ∈ a.values, 0 ≤ v ∧ v < 128) →
      a.values.length < 2 ^ (8 * a.size - 1) →
      ∃ bs, a.encode = some bs ∧
        VariableLengthArray.from_stream a.size ⟨bs, 0⟩ = (a, ⟨bs, bs.length⟩)) ∧
    (VariableLengthArray.mk 1 [0xAA, 0xBB]).encode = some [0x02, 0xAA, 0xBB] ∧
    (VariableLengthArray.mk 2 []).encode = some [0x00, 0x00] := by
  refine ⟨?_, by decide, by decide⟩
  rintro ⟨size, values⟩ hsize hval hlen
  simp only at hval hlen
  have hlenle : ¬ values.length > 2 ^ (8 * size) - 1 := by
    have hle : 2 ^ (8 * size - 1) ≤ 2 ^ (8 * size) - 1 := by
      rcases hsize with h | h <;> subst h <;> norm_num
    omega
  have henc : VariableLengthArray.encode ⟨size, values⟩ =
      some (natToBytesBE size values.length ++
        values.map (fun v => (v % 256 : Int).toNat)) := by
    simp only [VariableLengthArray.encode, hlenle, if_false]
  refine ⟨_, henc, ?_⟩
  set L := natToBytesBE size values.length with hL
  set data := values.map (fun v => (v % 256 : Int).toNat) with hdata
  have hlenB : L.length = size := natToBytesBE_length _ _
  have hlen2 : intFromBytesBESigned L = values.length :=
    intFromBytesBESigned_natToBytesBE size values.length hlen
  have hdrop : (L ++ data).drop size = data ++ [] := by
    rw [List.append_nil]; exact List.drop_left' hlenB
  have hrd := readInt8List_maps values hval (L ++ data) size [] hdrop
  have hdatalen : data.length = values.length := by simp [hdata]
  simp only [VariableLengthArray.from_stream, DStream.read, List.drop_zero,
    List.take_left' hlenB, hlen2, Int.toNat_natCast, Nat.zero_add]
  rw [hrd]
  simp [hdatalen, hlenB, Nat.add_comm]

/-- C4 witness: the round-trip theorem applied at VLA(size=1, values=[0x12, 0x7F]). -/
theorem vla_roundtrip_low_values_witness :
    ∃ bs, (VariableLengthArray.mk 1 [0x12, 0x7F]).encode = some bs ∧
      VariableLengthArray.from_stream 1 ⟨bs, 0⟩ =
        (VariableLengthArray.mk 1 [0x12, 0x7F], ⟨bs, bs.length⟩) :=
  vla_roundtrip_low_values.1 ⟨1, [0x12, 0x7F]⟩ (Or.inl rfl) (by decide) (by decide)

/-! ### C9: MUTF8String.encode -/

theorem utf8Encode_ascii (s : List Nat) (h : ∀ c ∈ s, c < 128) :
    utf8Encode s = s := by
  induction s with
  | nil => rfl
  | cons c t ih =>
    have hc : c < 128 := h c (by simp)
    have ht : ∀ c ∈ t, c < 128 := fun x hx => h x (by simp [hx])
    simp only [utf8Encode, List.flatMap_cons] at *
    rw [ih ht, utf8EncodeChar, if_pos hc]
    rfl

/-- C9 counterexample: for the one-character string U+00E9, from_py_string
stores length 1 (the CHARACTER count) but encode emits two UTF-8 data
bytes C3 A9 after the 00 01 prefix, so the prefix L is not followed by
exactly L bytes of data. -/
theorem mutf8_encode_length_mismatch_nonascii :
    (MUTF8String.from_py_string [0xE9]).encode = some [0x00, 0x01, 0xC3, 0xA9] ∧
    ([0x00, 0x01, 0xC3, 0xA9] : List Nat).length ≠
      2 + (MUTF8String.from_py_string [0xE9]).length := by
  refine ⟨by decide, by decide⟩

/-- C9 (amended): for strings of ASCII code points (each below 0x80) of
length at most 65535, encode produces the 2-byte big-endian character
count followed by exactly that many data bytes (the UTF-8 data equals the
code points themselves); the claim fails for non-ASCII characters, whose
UTF-8 data is longer than the stored character count. -/
theorem mutf8_encode_ascii_length_exact (s : List Nat)
    (hascii : ∀ c ∈ s, c < 128) (hlen : s.length ≤ 65535) :
    (MUTF8String.from_py_string s).encode = some (natToBytesBE 2 s.length ++ s) ∧
    (natToBytesBE 2 s.length ++ s).length = 2 + s.length := by
  constructor
  · simp only [MUTF8String.encode, MUTF8String.from_py_string]
    rw [if_pos (by omega), utf8Encode_ascii s hascii]
  · simp [natToBytesBE_length]

/-- C9 witness: the theorem applied at "hi" (68 69), giving 00 02 68 69,
together with the empty-string encoding 00 00. -/
theorem mutf8_encode_ascii_length_exact_witness :
    ((MUTF8String.from_py_string [0x68, 0x69]).encode =
      some (natToBytesBE 2 2 ++ [0x68, 0x69]) ∧
     (natToBytesBE 2 2 ++ [0x68, 0x69]).length = 2 + 2) ∧
    (MUTF8String.from_py_string []).encode = some [0x00, 0x00] :=
  ⟨mutf8_encode_ascii_length_exact [0x68, 0x69] (by decide) (by decide), by decide⟩

/-! ### C8: compressed-float round-trip error -/

/-- Truncating quantization of q in [0, D] to N steps: the reconstruction
D * floor(q*N/D) / N undershoots by less than D / N (and never overshoots),
and the raw level lies in [0, N]. -/
theorem trunc_roundtrip_bound (q D N : ℚ) (hD : 0 < D) (hN : 0 < N)
    (h0 : 0 ≤ q) (h1 : q ≤ D) :
    0 ≤ q - D * (⌊q * N / D⌋ : ℚ) / N ∧
    q - D * (⌊q * N / D⌋ : ℚ) / N < D / N ∧
    0 ≤ ⌊q * N / D⌋ ∧ ⌊q * N / D⌋ ≤ ⌊N⌋ := by
  set t : ℚ := q * N / D with ht
  have ht0 : 0 ≤ t := div_nonneg (mul_nonneg h0 (le_of_lt hN)) (le_of_lt hD)
  have htN : t ≤ N := by
    rw [ht, div_le_iff₀ hD]
    calc q * N ≤ D * N := mul_le_mul_of_nonneg_right h1 (le_of_lt hN)
    _ = N * D := mul_comm _ _
  have hfl : (⌊t⌋ : ℚ) ≤ t := Int.floor_le t
  have hfl2 : t < (⌊t⌋ : ℚ) + 1 := Int.lt_floor_add_one t
  have hq : q = t * D / N := by
    rw [ht]; field_simp
  have hkey : q - D * (⌊t⌋ : ℚ) / N = (t - (⌊t⌋ : ℚ)) * (D / N) := by
    rw [hq]; ring
  refine ⟨?_, ?_, Int.floor_nonneg.mpr ht0, Int.floor_le_floor htN⟩
  · rw [hkey]
    exact mul_nonneg (by linarith) (le_of_lt (div_pos hD hN))
  · rw [hkey]
    calc (t - (⌊t⌋ : ℚ)) * (D / N) < 1 * (D / N) :=
      mul_lt_mul_of_pos_right (by linarith) (div_pos hD hN)
    _ = D / N := one_mul _

/-- C8 counterexample: for the 2-byte encoding with max = 65535 and
v = 2 - 1/1000000, compress truncates (Python int()) instead of rounding,
and the round-trip error 0.999999 exceeds the claimed bound
max / 2^16 = 65535/65536. -/
theorem compressed_float_error_exceeds_pow2_bound :
    0 ≤ (2 - 1 / 1000000 : ℚ) ∧ (2 - 1 / 1000000 : ℚ) ≤ 65535 ∧
    |(CompressedFloat.decompress
        (CompressedFloat.mk (2 - 1 / 1000000) 65535).compress 65535).value -
      (2 - 1 / 1000000 : ℚ)| > 65535 / 2 ^ 16 := by
  have h1 : (CompressedFloat.mk (2 - 1 / 1000000) 65535).compress = 1 := by
    simp only [CompressedFloat.compress, pyInt]
    rw [show ((2 - 1 / 1000000 - 0 : ℚ) * 65535 / (65535 - 0)) = (2 - 1 / 1000000 : ℚ) by
      norm_num]
    rw [if_pos (by norm_num)]
    norm_num
  refine ⟨by norm_num, by norm_num, ?_⟩
  rw [h1]
  simp only [CompressedFloat.decompress]
  norm_num [abs_of_neg]

/-- C8 (amended): the code truncates instead of rounding, so the
round-trip error of the encodings the code implements is one-sided and
strictly below one quantization step: below max/65535 = max/(2^16 - 1)
for the 2-byte compress, and below (max-min)/255 = (max-min)/(2^8 - 1)
for the 1-byte clamped compress decoded by from_1_clamped; the source has
no 3-byte compress (from_3 is decode-only). -/
theorem compressed_float_roundtrip_error_bounds :
    (∀ v max_range : ℚ, 0 < max_range → 0 ≤ v → v ≤ max_range →
      0 ≤ v - (CompressedFloat.decompress
          (CompressedFloat.mk v max_range).compress max_range).value ∧
      v - (CompressedFloat.decompress
          (CompressedFloat.mk v max_range).compress max_range).value <
        max_range / 65535) ∧
    (∀ v min_v max_v : ℚ, min_v < max_v → min_v ≤ v → v ≤ max_v →
      0 ≤ v - (CompressedFloat.from_1_clamped min_v max_v
          ⟨write_int8 ((CompressedFloat.mk v max_v).compress_1_clamp min_v), 0⟩).1.value ∧
      v - (CompressedFloat.from_1_clamped min_v max_v
          ⟨write_int8 ((CompressedFloat.mk v max_v).compress_1_clamp min_v), 0⟩).1.value <
        (max_v - min_v) / 255) := by
  constructor
  · intro v max_range hmax h0 h1
    have hb := trunc_roundtrip_bound v max_range 65535 hmax (by norm_num) h0 h1
    have hN : ⌊(65535 : ℚ)⌋ = 65535 := by norm_num
    rw [hN] at hb
    have hcomp : (CompressedFloat.mk v max_range).compress = ⌊v * 65535 / max_range⌋ := by
      simp only [CompressedFloat.compress, pyInt, sub_zero]
      rw [if_pos (div_nonneg (mul_nonneg h0 (by norm_num)) (le_of_lt hmax))]
    have hmod : ⌊v * 65535 / max_range⌋ % (65536 : Int) = ⌊v * 65535 / max_range⌋ :=
      Int.emod_eq_of_lt hb.2.2.1 (by omega)
    simp only [CompressedFloat.decompress, hcomp, hmod, sub_zero, add_zero]
    exact ⟨hb.1, hb.2.1⟩
  · intro v min_v max_v hlt h0 h1
    have hD : 0 < max_v - min_v := by linarith
    have hb := trunc_roundtrip_bound (v - min_v) (max_v - min_v) 255 hD (by norm_num)
      (by linarith) (by linarith)
    have hN : ⌊(255 : ℚ)⌋ = 255 := by norm_num
    rw [hN] at hb
    set r : Int := ⌊(v - min_v) * 255 / (max_v - min_v)⌋ with hr
    have hcomp : (CompressedFloat.mk v max_v).compress_1_clamp min_v = r := by
      simp only [CompressedFloat.compress_1_clamp, pyInt, hr]
      rw [if_pos (div_nonneg (mul_nonneg (by linarith) (by norm_num)) (le_of_lt hD))]
    have hmod : r % (256 : Int) = r := Int.emod_eq_of_lt hb.2.2.1 (by omega)
    have hbyte : write_int8 r = [r.toNat] := by
      simp only [write_int8, writeIntBE, natToBytesBE, List.nil_append]
      rw [show ((2 : Int) ^ (8 * 1)) = 256 from by norm_num, hmod]
      simp [Nat.mod_eq_of_lt (show r.toNat < 256 by omega)]
    have hcast : ((r.toNat % 256 : Nat) : ℚ) = (r : ℚ) := by
      rw [Nat.mod_eq_of_lt (by omega)]
      exact_mod_cast congrArg (Int.cast : Int → ℚ) (Int.toNat_of_nonneg hb.2.2.1)
    simp only [CompressedFloat.from_1_clamped, DStream.read_uint8, hcomp, hbyte,
      List.getD_cons_zero, hcast]
    constructor
    · have := hb.1; linarith
    · have := hb.2.1; linarith

/-- C8 witness: both bounds of the theorem applied at v = 30 with range 60
(2-byte) and at v = 2 in the clamp range 1..3 (1-byte). -/
theorem compressed_float_roundtrip_error_bounds_witness :
    (0 ≤ (30 : ℚ) - (CompressedFloat.decompress
        (CompressedFloat.mk 30 60).compress 60).value ∧
      (30 : ℚ) - (CompressedFloat.decompress
        (CompressedFloat.mk 30 60).compress 60).value < 60 / 65535) ∧
    (0 ≤ (2 : ℚ) - (CompressedFloat.from_1_clamped 1 3
        ⟨write_int8 ((CompressedFloat.mk 2 3).compress_1_clamp 1), 0⟩).1.value ∧
      (2 : ℚ) - (CompressedFloat.from_1_clamped 1 3
        ⟨write_int8 ((CompressedFloat.mk 2 3).compress_1_clamp 1), 0⟩).1.value <
        (3 - 1) / 255) :=
  ⟨compressed_float_roundtrip_error_bounds.1 30 60 (by norm_num) (by norm_num) (by norm_num),
   compressed_float_roundtrip_error_bounds.2 2 1 3 (by norm_num) (by norm_num) (by norm_num)⟩

/-! ### C2: the CONTROL tick counter -/

/-- A successful Control.write emits the current tick counter as the byte
at offset 8 and advances the counter modulo 255 (the source's % 0xff). -/
theorem control_write_tick_byte (pkt : Control) (c : ClientSt) (gp : GamePlayer)
    (h : c.game_player = some gp) (hticks : c.control_ticks < 255) :
    ∃ bytes c2, Control.write pkt c = some (bytes, c2) ∧
      bytes.getD 8 0 = c.control_ticks ∧
      c2.control_ticks = (c.control_ticks + 1) % 255 ∧
      c2.game_player = c.game_player := by
  simp only [Control.write, h]
  refine ⟨_, _, rfl, ?_, rfl, rfl⟩
  simp only [write_int8, write_int16, write_int32, writeIntBE, natToBytesBE,
    List.nil_append, List.cons_append, List.append_assoc, List.getD_cons_succ,
    List.getD_cons_zero, show ((2 : Int) ^ (8 * 1)) = 256 from by norm_num]
  omega

/-- The state after n heartbeat controls keeps the identified player and
carries tick counter n % 255. -/
theorem clientAfterControls_spec (c : ClientSt) (gp : GamePlayer)
    (h : c.game_player = some gp) (h0 : c.control_ticks = 0) (n : Nat) :
    (clientAfterControls c n).game_player = some gp ∧
    (clientAfterControls c n).control_ticks = n % 255 := by
  induction n with
  | zero => exact ⟨h, by simpa [clientAfterControls] using h0⟩
  | succ n ih =>
    obtain ⟨hgp, hticks⟩ := ih
    have hlt : (clientAfterControls c n).control_ticks < 255 := by omega
    obtain ⟨bytes, c2, hw, _, h2, h3⟩ :=
      control_write_tick_byte (heartbeatControl c.screen_aspect)
        (clientAfterControls c n) gp hgp hlt
    simp only [clientAfterControls, hw]
    exact ⟨h3.trans hgp, by omega⟩

/-- The n-th emitted CONTROL packet of a session that starts with tick
counter 0 carries tick byte n % 255. -/
theorem nthControlTick_mod (c : ClientSt) (gp : GamePlayer)
    (h : c.game_player = some gp) (h0 : c.control_ticks = 0) (n : Nat) :
    nthControlTick c n = n % 255 := by
  obtain ⟨hgp, hticks⟩ := clientAfterControls_spec c gp h h0 n
  obtain ⟨bytes, c2, hw, hbyte, -, -⟩ :=
    control_write_tick_byte (heartbeatControl c.screen_aspect)
      (clientAfterControls c n) gp hgp (by omega)
  simp only [nthControlTick, nthControlBytes, hw, Option.map_some', Option.getD_some]
  rw [hbyte, hticks]

/-- An all-zero GamePlayer, as a concrete identified local player. -/
def sampleGamePlayer : GamePlayer :=
  { x := 0, y := 0, name := ⟨[], 0, [], 0⟩, level := 0, account_id := 0, index := 0,
    skin := 0, skin2 := 0, halo := 0, hat := 0, eject_skin := 0, particle := 0,
    pet := ⟨0, 0, 0, 0, [], 0⟩, pet2 := ⟨0, 0, 0, 0, [], 0⟩, custom_skin := 0,
    custom_skin2 := 0, custom_particle := 0, skin_interpolation_rate := 0,
    blob_color := 0, team_id := 0,
    clan_member := ⟨⟨[], [], 0, -1⟩, false, false, false, false, 0, 0, false⟩,
    click_type := 0, level_colors := [] }

/-- A post-handshake client whose local player has been identified. -/
def sampleClientWithPlayer : ClientSt :=
  { initClient 1 2 3 [10, 20, 30, 40] [65] 2 with game_player := some sampleGamePlayer }

/-- C2 counterexample: starting from tick counter 0, the 255th and 256th
emitted CONTROL packets carry tick bytes 254 and then 0: the counter is
advanced with % 0xff = % 255, so no packet ever carries 255 and this
consecutive pair differs by 2, not 1, modulo 256. -/
theorem control_tick_wraps_at_255_not_256 :
    nthControlTick sampleClientWithPlayer 254 = 254 ∧
    nthControlTick sampleClientWithPlayer 255 = 0 ∧
    (256 + nthControlTick sampleClientWithPlayer 255
      - nthControlTick sampleClientWithPlayer 254) % 256 = 2 := by
  have h254 := nthControlTick_mod sampleClientWithPlayer sampleGamePlayer rfl rfl 254
  have h255 := nthControlTick_mod sampleClientWithPlayer sampleGamePlayer rfl rfl 255
  refine ⟨by omega, by omega, by omega⟩

/-- C2 (amended): in any session whose tick counter starts at 0, the n-th
emitted CONTROL packet carries tick byte n % 255, and consecutive CONTROL
packets carry tick bytes differing by exactly 1 modulo 255 (so the first
five carry 0,1,2,3,4, and a packet carrying 254 is followed by one
carrying 0; the byte 255 is never emitted). -/
theorem control_tick_increments_mod_255 (c : ClientSt) (gp : GamePlayer)
    (h : c.game_player = some gp) (h0 : c.control_ticks = 0) (n : Nat) :
    nthControlTick c n = n % 255 ∧
    nthControlTick c (n + 1) = (nthControlTick c n + 1) % 255 := by
  have a := nthControlTick_mod c gp h h0 n
  have b := nthControlTick_mod c gp h h0 (n + 1)
  exact ⟨a, by omega⟩

/-- C2 witness: the amended theorem at the concrete identified client, n = 3. -/
theorem control_tick_increments_mod_255_witness :
    nthControlTick sampleClientWithPlayer 3 = 3 % 255 ∧
    nthControlTick sampleClientWithPlayer 4 = (nthControlTick sampleClientWithPlayer 3 + 1) % 255 :=
  control_tick_increments_mod_255 sampleClientWithPlayer sampleGamePlayer rfl rfl 3

/-! ### C3: GAME_DATA and the world mirror -/

/-- The player loop of on_game_data appends the converted players in
packet order, whatever the alias matching does to game_player. -/
theorem onGameDataPlayers_fst (random_alias : List Nat) (ps : List NetPlayer) :
    ∀ (acc : List GamePlayer) (gp : Option GamePlayer),
      (onGameDataPlayers random_alias ps acc gp).1 = acc ++ ps.map toGamePlayer := by
  induction ps with
  | nil => intro acc gp; simp [onGameDataPlayers]
  | cons p rest ih =>
    intro acc gp
    simp only [onGameDataPlayers, ih, List.map_cons]
    simp

/-- An all-zero NetPlayer as decoded from a GAME_DATA player record. -/
def sampleNetPlayer : NetPlayer :=
  { player_id := 0, skin_id := 0, eject_skin_id := 0, custom_skin_id := 0,
    custom_pet_id := 0, pet_id := 0, pet_level := 0,
    pet_name := MUTF8String.from_py_string [], hat_id := 0, halo_id := 0,
    pet_id2 := 0, pet_level2 := 0, pet_name2 := MUTF8String.from_py_string [],
    custom_pet_id2 := 0, custom_particle_id := 0, particle_id := 0,
    level_colors := ⟨1, []⟩, name_animation_id := 0, skin_id2 := 0,
    skin_interpolation_rate := ⟨0, 60⟩, custom_skin_id2 := 0, blob_color := 0,
    team_id := 0, player_name := MUTF8String.from_py_string [], font_id := 0,
    alias_colors := ⟨1, []⟩, account_id := 0, player_level := 0,
    clan_name := MUTF8String.from_py_string [], clan_colors := ⟨1, []⟩,
    clan_role := 0, click_type := 0 }

/-- A GAME_DATA packet carrying exactly one player and nothing else. -/
def sampleGameData : GameData :=
  { public_id := 1, map_size := 500, player_count := 1, eject_count := 0,
    dot_id_offset := 0, dot_count := 0, item_id_offset := 0, item_count := 0,
    player_objects := [sampleNetPlayer], eject_objects := [], dot_objects := [],
    item_objects := [] }

/-- A world mirror already holding one player from an earlier GAME_DATA. -/
def sampleWorld : GameWorld := ⟨[sampleGamePlayer], [], [], [], none⟩

/-- C3 counterexample: processing a GAME_DATA packet carrying exactly one
player against a mirror that already holds one player leaves TWO players
in the mirror: on_game_data appends to the lists (the source never clears
them), so the mirror is not replaced by the packet's decoded lists. -/
theorem game_data_appends_not_replaces :
    (on_game_data [] sampleWorld none sampleGameData).1.players.length = 2 ∧
    sampleGameData.player_objects.length = 1 ∧
    (on_game_data [] sampleWorld none sampleGameData).1.players ≠
      sampleGameData.player_objects.map toGamePlayer := by
  have h : (on_game_data [] sampleWorld none sampleGameData).1.players =
      sampleWorld.players ++ sampleGameData.player_objects.map toGamePlayer := by
    simp only [on_game_data, onGameDataPlayers_fst]
  refine ⟨by rw [h]; rfl, rfl, ?_⟩
  rw [h]
  intro hc
  have := congrArg List.length hc
  simp [sampleWorld, sampleGameData] at this

/-- C3 (amended): processing a GAME_DATA packet APPENDS the decoded
players, ejects, dots and items (converted exactly as the source
constructs them) to the world mirror's lists, and records the packet's
map_size in the mirror (wrapped in the GameSize the source stores). -/
theorem on_game_data_appends_and_records_map_size (random_alias : List Nat)
    (w : GameWorld) (gp : Option GamePlayer) (pkt : GameData) :
    (on_game_data random_alias w gp pkt).1.players =
      w.players ++ pkt.player_objects.map toGamePlayer ∧
    (on_game_data random_alias w gp pkt).1.ejects =
      w.ejects ++ pkt.eject_objects.map
        (fun e => GamePlayerMass.mk e.xpos.value e.ypos.value e.eject_id e.mass.value) ∧
    (on_game_data random_alias w gp pkt).1.dots =
      w.dots ++ pkt.dot_objects.map
        (fun d => GameDot.mk d.xpos.value d.ypos.value d.dot_id) ∧
    (on_game_data random_alias w gp pkt).1.items =
      w.items ++ pkt.item_objects.map
        (fun i => GameItem.mk i.xpos.value i.ypos.value i.item_id i.item_type) ∧
    (on_game_data random_alias w gp pkt).1.map_size =
      some (GameSize.from_map_size pkt.map_size) := by
  refine ⟨?_, rfl, rfl, rfl, rfl⟩
  simp only [on_game_data, onGameDataPlayers_fst]

/-! ### C7: RadiationCloud and BRBounds event layouts -/

/-- C7: evaluating the source's readers at a concrete RadiationCloud
datagram (type 5 here, player 1, payload 12 34 56 78 9A BC DE F0) with
map size 100 shows the x/y coordinates are decoded by the 2-byte
CompressedFloat.from_stream: the reader consumes 8 bytes (type + player +
2+2+2), not the 1+1+3+3+2 = 10 of the claimed (and field-comment
documented) 3-byte layout, and x decodes to 100*0x1234/65535 rather than
the CompressedFloat-3 value 100*0x123456/16777215; likewise BRBounds
consumes 1 + 8*2 = 17 bytes, not 1 + 8*3 = 25. -/
theorem radiation_brbounds_read_two_byte_floats :
    (∃ ev s2, RadiationCloudEvent.read 5 (GameSize.from_map_size 100)
        ⟨[5, 1, 0x12, 0x34, 0x56, 0x78, 0x9A, 0xBC, 0xDE, 0xF0], 0⟩ = some (ev, s2) ∧
      s2.pos = 8 ∧
      ev.x_pos = 100 * (0x1234 : ℚ) / 65535 ∧
      ev.x_pos ≠ 100 * (0x123456 : ℚ) / 16777215) ∧
    (∃ ev2 s3, BRBoundsEvent.read 6 (GameSize.from_map_size 100)
        ⟨List.replicate 30 6, 0⟩ = some (ev2, s3) ∧ s3.pos = 17) := by
  constructor
  · refine ⟨_, _, rfl, rfl, ?_, ?_⟩
    · simp only [RadiationCloudEvent.read, CompressedFloat.from_stream,
        CompressedFloat.decompress, DStream.read_int8, DStream.read_uint8,
        DStream.read_uint16, GameSize.to_map_size, GameSize.from_map_size]
      norm_num
    · simp only [RadiationCloudEvent.read, CompressedFloat.from_stream,
        CompressedFloat.decompress, DStream.read_int8, DStream.read_uint8,
        DStream.read_uint16, GameSize.to_map_size, GameSize.from_map_size]
      norm_num
  · exact ⟨_, _, rfl, rfl⟩

/-! ### C5 and C6: session-loop invariants -/

/-- A concrete post-handshake client. -/
def sampleClient : ClientSt := initClient 1 2 3 [10, 20, 30, 40] [65] 2

/-- The wire type byte of a queued chat packet. -/
def queuedType (q : QueuedPacket) : Int :=
  match q with
  | .gameChat m => m.packet_type
  | .clanChat m => m.packet_type

theorem head_write_int8_append (v : Int) (rest : List Nat) :
    (write_int8 v ++ rest).headD 0 = ((v % 256 : Int)).toNat := by
  simp [write_int8, writeIntBE, natToBytesBE]
  omega

theorem gameChat_write_head (m : GameChatMessage) (pub cid : Int) (bytes : List Nat)
    (h : m.write pub cid = some bytes) :
    bytes.headD 0 = ((m.packet_type % 256 : Int)).toNat := by
  rcases ha : m.«alias».encode with - | aB
  · simp [GameChatMessage.write, ha] at h
  rcases hm : m.message.encode with - | mB
  · simp [GameChatMessage.write, ha, hm] at h
  rcases hc : m.alias_colors.encode with - | cB
  · simp [GameChatMessage.write, ha, hm, hc] at h
  simp only [GameChatMessage.write, ha, hm, hc, Option.pure_def, Option.some_bind,
    Option.bind_eq_bind, Option.some.injEq] at h
  rw [← h]
  simp only [List.append_assoc]
  rw [head_write_int8_append]

theorem clanChat_write_head (m : ClanChatMessage) (pub cid : Int) (bytes : List Nat)
    (h : m.write pub cid = some bytes) :
    bytes.headD 0 = ((m.packet_type % 256 : Int)).toNat := by
  have hb : (MUTF8String.from_py_string ([] : List Nat)).encode = some [0, 0] := rfl
  rcases hm : m.message.encode with - | mB
  · simp [ClanChatMessage.write, hb, hm] at h
  simp only [ClanChatMessage.write, hb, hm, Option.pure_def, Option.some_bind,
    Option.bind_eq_bind, Option.some.injEq] at h
  rw [← h]
  simp only [List.append_assoc]
  rw [head_write_int8_append]

theorem stopClient_sent (s : ClientSt) :
    (stopClient s).sent = s.sent ++
      [Disconnect.write ⟨7, s.server_public_id, s.server_private_id, s.server_client_id⟩] ∧
    (stopClient s).game_player = s.game_player ∧
    (stopClient s).packet_queue = s.packet_queue ∧
    (stopClient s).game_data_done = s.game_data_done :=
  ⟨rfl, rfl, rfl, rfl⟩

theorem disconnect_write_head (pub priv cid : Int) :
    (Disconnect.write ⟨7, pub, priv, cid⟩).headD 0 = 7 := by
  rw [Disconnect.write]
  simp only [List.append_assoc]
  rw [head_write_int8_append]
  rfl

theorem keepalive_write_head (pub priv cid : Int) (ip : List Nat) :
    (KeepAlive.write ⟨3, pub, priv, ip, cid⟩).headD 0 = 3 := by
  rw [KeepAlive.write]
  simp only [List.append_assoc]
  rw [head_write_int8_append]
  rfl

/-- The alias-matching loop can only set game_player, never clear it. -/
theorem onGameDataPlayers_none (random_alias : List Nat) (ps : List NetPlayer) :
    ∀ (acc : List GamePlayer) (gp : Option GamePlayer),
      (onGameDataPlayers random_alias ps acc gp).2 = none → gp = none := by
  induction ps with
  | nil => intro acc gp h; exact h
  | cons p rest ih =>
    intro acc gp h
    have h2 := ih (acc ++ [toGamePlayer p]) _ h
    by_cases hm : p.player_name.value = random_alias
    · simp [hm] at h2
    · simpa [hm] using h2

/-- Inversion of a successful Control.write: only the tick counter of the
client changes. -/
theorem control_write_some_inv (pkt : Control) (c : ClientSt) (b : List Nat)
    (c2 : ClientSt) (h : Control.write pkt c = some (b, c2)) :
    c2 = { c with control_ticks := (c.control_ticks + 1) % 255 } := by
  cases hgp : c.game_player with
  | none => simp [Control.write, hgp] at h
  | some gp =>
    simp only [Control.write, hgp, Option.some.injEq, Prod.mk.injEq] at h
    exact h.2.symm

theorem stopClient_gate (s : ClientSt) :
    (stopClient s).game_data_done = s.game_data_done := rfl

theorem heartbeatStep_gate (s : ClientSt) :
    (heartbeatStep s).game_data_done = s.game_data_done := by
  simp only [heartbeatStep]
  split
  · rfl
  · split
    · rename_i bytes c2 heq
      rw [control_write_some_inv _ _ _ _ heq]
    · rfl

theorem sendQueuedStep_gate (s : ClientSt) :
    (sendQueuedStep s).game_data_done = s.game_data_done := by
  simp only [sendQueuedStep]
  split
  · rfl
  · split
    · rfl
    · split <;> rfl

theorem recvStep_gameData_gate (s : ClientSt) (g : GameData) :
    (recvStep s (.gameData g)).game_data_done = s.game_data_done := by
  simp only [recvStep]
  split
  · rfl
  · split <;> rfl

/-- C6 counterexample: a session whose very first received datagram has a
known type other than GAME_DATA (here GAME_CHAT_MESSAGE = 8) sets the
game-data-ready gate even though ZERO GAME_DATA packets preceded it, so
the gate is not set "on the first non-GAME_DATA datagram that follows one
or more GAME_DATA packets". -/
theorem gate_sets_without_prior_game_data :
    (sessionRun sampleClient [.recv (.other 8)]).game_data_done = true ∧
    (sessionRun sampleClient [.recv (.other 8)]).gamedata_received = 0 := by
  exact ⟨rfl, rfl⟩

/-- C6 (amended): the gate never clears once set (every step preserves
it), and from an unset gate in a live session a received datagram sets it
exactly when its leading type byte is a known packet type (0..119) other
than GAME_DATA = 75 — whether or not any GAME_DATA preceded it. -/
theorem gate_monotone_and_set_characterization :
    (∀ (s : ClientSt) (a : SessionAct), s.game_data_done = true →
      (sessionStep s a).game_data_done = true) ∧
    (∀ (s : ClientSt) (d : Dgram), s.stopped = false → s.game_data_done = false →
      ((sessionStep s (.recv d)).game_data_done = true ↔
        ∃ t, d = Dgram.other t ∧ t ≤ 119 ∧ t ≠ 75)) := by
  constructor
  · intro s a h
    cases a with
    | recv d =>
      cases d with
      | gameData g => rw [sessionStep, recvStep_gameData_gate]; exact h
      | other t =>
        simp only [sessionStep, recvStep]
        split_ifs <;> first | rfl | exact h
    | heartbeat => rw [sessionStep, heartbeatStep_gate]; exact h
    | sendQueued => rw [sessionStep, sendQueuedStep_gate]; exact h
    | sendGameMessage a m c b f => exact h
    | sendClanMessage m => exact h
    | stop =>
      simp only [sessionStep]
      split
      · exact h
      · rw [stopClient_gate]; exact h
  · intro s d hstop hgate
    cases d with
    | gameData g =>
      rw [sessionStep, recvStep_gameData_gate, hgate]
      constructor
      · intro hc; cases hc
      · rintro ⟨t, ht, -, -⟩; cases ht
    | other t =>
      simp only [sessionStep, recvStep, hstop, Bool.false_eq_true, if_false]
      by_cases h119 : 119 < t
      · rw [if_pos h119, hgate]
        constructor
        · intro hc; cases hc
        · rintro ⟨u, hu, hle, -⟩
          cases hu; omega
      · rw [if_neg h119]
        by_cases h75 : t = 75
        · rw [if_pos h75, hgate]
          constructor
          · intro hc; cases hc
          · rintro ⟨u, hu, -, hne⟩
            cases hu; exact absurd h75 (by simpa using hne)
        · rw [if_neg h75]
          constructor
          · intro _
            exact ⟨t, rfl, by omega, h75⟩
          · intro _
            split
            · rw [stopClient_gate]
              split
              · rfl
              · simp_all
            · split
              · rfl
              · simp_all

/-- C6 witness: the characterization applied to the initial client and a
datagram of known type 8. -/
theorem gate_monotone_and_set_characterization_witness :
    (sessionStep sampleClient (.recv (.other 8))).game_data_done = true ↔
      ∃ t, Dgram.other 8 = Dgram.other t ∧ t ≤ 119 ∧ t ≠ 75 :=
  gate_monotone_and_set_characterization.2 sampleClient (.other 8) rfl rfl

theorem control_write_none_inv (pkt : Control) (c : ClientSt)
    (h : Control.write pkt c = none) : c.game_player = none := by
  cases hgp : c.game_player with
  | none => rfl
  | some gp => simp [Control.write, hgp] at h

theorem control_write_some_gp (pkt : Control) (c : ClientSt) (x : List Nat × ClientSt)
    (h : Control.write pkt c = some x) : ∃ gp, c.game_player = some gp := by
  cases hgp : c.game_player with
  | none => simp [Control.write, hgp] at h
  | some gp => exact ⟨gp, rfl⟩

/-- The send-loop safety invariant: while the local player is not yet
identified nothing with CONTROL's leading byte 2 has been handed to the
socket, and the outbound queue holds only chat packets (type 8 or 9). -/
def ControlSafe (s : ClientSt) : Prop :=
  (s.game_player = none → ∀ b ∈ s.sent, b.headD 0 ≠ 2) ∧
  (∀ q ∈ s.packet_queue, queuedType q = 8 ∨ queuedType q = 9)

theorem controlSafe_step (s : ClientSt) (a : SessionAct) (h : ControlSafe s) :
    ControlSafe (sessionStep s a) := by
  obtain ⟨h1, h2⟩ := h
  cases a with
  | recv d =>
    cases d with
    | gameData g =>
      simp only [sessionStep, recvStep]
      split
      · exact ⟨h1, h2⟩
      split
      · refine ⟨?_, h2⟩
        intro hgp b hb
        refine h1 ?_ b hb
        have hg : (onGameDataPlayers s.random_alias g.player_objects
            s.game_world.players s.game_player).2 = none := hgp
        exact onGameDataPlayers_none _ _ _ _ hg
      · refine ⟨?_, h2⟩
        intro hgp b hb
        refine h1 ?_ b hb
        have hg : (onGameDataPlayers s.random_alias g.player_objects
            s.game_world.players s.game_player).2 = none := hgp
        exact onGameDataPlayers_none _ _ _ _ hg
    | other t =>
      simp only [sessionStep, recvStep]
      split
      · exact ⟨h1, h2⟩
      split
      · exact ⟨h1, h2⟩
      split
      · exact ⟨h1, h2⟩
      split
      · split
        · refine ⟨?_, h2⟩
          intro hgp b hb
          simp only [stopClient, List.mem_append, List.mem_singleton] at hb
          rcases hb with hb | hb
          · exact h1 hgp b hb
          · subst hb; rw [disconnect_write_head]; decide
        · refine ⟨?_, h2⟩
          intro hgp b hb
          simp only [stopClient, List.mem_append, List.mem_singleton] at hb
          rcases hb with hb | hb
          · exact h1 hgp b hb
          · subst hb; rw [disconnect_write_head]; decide
      · split
        · exact ⟨h1, h2⟩
        · exact ⟨h1, h2⟩
  | heartbeat =>
    simp only [sessionStep, heartbeatStep]
    split
    · exact ⟨h1, h2⟩
    split
    · rename_i bytes c2 heq
      obtain ⟨gp0, hgp0⟩ := control_write_some_gp _ _ _ heq
      rw [control_write_some_inv _ _ _ _ heq]
      refine ⟨?_, h2⟩
      intro hgp
      have hnone : s.game_player = none := hgp
      rw [hgp0] at hnone
      cases hnone
    · rename_i heq
      refine ⟨?_, h2⟩
      intro hgp b hb
      simp only [stopClient, List.mem_append, List.mem_singleton] at hb
      rcases hb with (hb | hb) | hb
      · have hnone0 := control_write_none_inv _ _ heq
        have hnone : s.game_player = none := hnone0
        exact h1 hnone b hb
      · subst hb; rw [keepalive_write_head]; decide
      · subst hb; rw [disconnect_write_head]; decide
  | sendQueued =>
    simp only [sessionStep, sendQueuedStep]
    split
    · exact ⟨h1, h2⟩
    split
    · exact ⟨h1, h2⟩
    rename_i q rest hq
    cases hw : QueuedPacket.write q s.server_public_id s.server_client_id with
    | some bytes =>
      refine ⟨?_, fun p hp => h2 p (by rw [hq]; exact List.mem_cons_of_mem q hp)⟩
      intro hgp b hb
      simp only [List.mem_append, List.mem_singleton] at hb
      rcases hb with hb | hb
      · exact h1 hgp b hb
      · subst hb
        have hqt := h2 q (by rw [hq]; exact List.mem_cons_self q rest)
        cases q with
        | gameChat m =>
          rw [gameChat_write_head m _ _ _ hw]
          rcases hqt with ht | ht <;> · rw [queuedType] at ht; rw [ht]; decide
        | clanChat m =>
          rw [clanChat_write_head m _ _ _ hw]
          rcases hqt with ht | ht <;> · rw [queuedType] at ht; rw [ht]; decide
    | none =>
      refine ⟨?_, fun p hp => h2 p (by rw [hq]; exact List.mem_cons_of_mem q hp)⟩
      intro hgp b hb
      simp only [stopClient, List.mem_append, List.mem_singleton] at hb
      rcases hb with hb | hb
      · exact h1 hgp b hb
      · subst hb; rw [disconnect_write_head]; decide
  | sendGameMessage a m c bb f =>
    refine ⟨h1, ?_⟩
    intro p hp
    simp only [sessionStep, sendGameMessageStep, List.mem_append, List.mem_singleton] at hp
    rcases hp with hp | hp
    · exact h2 p hp
    · subst hp; left; rfl
  | sendClanMessage m =>
    refine ⟨h1, ?_⟩
    intro p hp
    simp only [sessionStep, sendClanMessageStep, List.mem_append, List.mem_singleton] at hp
    rcases hp with hp | hp
    · exact h2 p hp
    · subst hp; right; rfl
  | stop =>
    simp only [sessionStep]
    split
    · exact ⟨h1, h2⟩
    · refine ⟨?_, h2⟩
      intro hgp b hb
      simp only [stopClient, List.mem_append, List.mem_singleton] at hb
      rcases hb with hb | hb
      · exact h1 hgp b hb
      · subst hb; rw [disconnect_write_head]; decide

theorem controlSafe_run (acts : List SessionAct) :
    ∀ s : ClientSt, ControlSafe s → ControlSafe (sessionRun s acts) := by
  induction acts with
  | nil => intro s h; exact h
  | cons a rest ih =>
    intro s h
    exact ih _ (controlSafe_step s a h)

/-- C5: in any interleaving of receive-loop, send-loop, chat and stop
steps from the post-handshake state, as long as the local player has not
been identified by the random-alias match in a received GAME_DATA packet,
no datagram with CONTROL's leading type byte 2 has been handed to the
socket (the heartbeat's Control.write raises on the missing player before
anything is sent). -/
theorem no_control_before_identity (publicId privateId clientId : Int)
    (ip random_alias : List Nat) (aspect : ℚ) (acts : List SessionAct)
    (h : (sessionRun (initClient publicId privateId clientId ip random_alias aspect)
        acts).game_player = none) :
    ∀ b ∈ (sessionRun (initClient publicId privateId clientId ip random_alias aspect)
        acts).sent, b.headD 0 ≠ 2 := by
  have hinit : ControlSafe (initClient publicId privateId clientId ip random_alias aspect) := by
    constructor
    · intro _ b hb; cases hb
    · intro q hq; cases hq
  exact (controlSafe_run acts _ hinit).1 h

/-- C5 witness: a session that receives one known non-GAME_DATA datagram
(which opens the gate) and then fires the heartbeat while the player is
still unknown; the heartbeat sends the keep-alive and then dies in
Control.write, so nothing sent carries type byte 2. -/
theorem no_control_before_identity_witness :
    (sessionRun (initClient 1 2 3 [10, 20, 30, 40] [65] 2)
      [.recv (.other 8), .heartbeat]).game_player = none ∧
    ∀ b ∈ (sessionRun (initClient 1 2 3 [10, 20, 30, 40] [65] 2)
      [.recv (.other 8), .heartbeat]).sent, b.headD 0 ≠ 2 :=
  ⟨rfl, no_control_before_identity 1 2 3 [10, 20, 30, 40] [65] 2
    [.recv (.other 8), .heartbeat] rfl⟩

/-! ### C1 and C10: the connect shuffle -/

theorem take_set_of_le {α : Type} (l : List α) :
    ∀ (n k : Nat) (v : α), k ≤ n → (l.set n v).take k = l.take k := by
  induction l with
  | nil => simp
  | cons a t ih =>
    intro n k v hk
    cases n with
    | zero =>
      have : k = 0 := Nat.le_zero.mp hk
      subst this; simp
    | succ m =>
      cases k with
      | zero => simp
      | succ j =>
        simp only [List.set_cons_succ, List.take_succ_cons]
        rw [ih m j v (Nat.succ_le_succ_iff.mp hk)]

theorem cons_set_perm {α : Type} (t : List α) :
    ∀ (m : Nat) (a d : α), m < t.length →
      (t.getD m d :: t.set m a).Perm (a :: t) := by
  induction t with
  | nil => intro m a d h; cases h
  | cons c t2 ih =>
    intro m a d h
    cases m with
    | zero =>
      simp only [List.getD_cons_zero, List.set_cons_zero]
      exact List.Perm.swap a c t2
    | succ k =>
      simp only [List.getD_cons_succ, List.set_cons_succ]
      calc (t2.getD k d :: c :: t2.set k a).Perm (c :: t2.getD k d :: t2.set k a) :=
        List.Perm.swap c (t2.getD k d) _
      _ |>.Perm (c :: a :: t2) := List.Perm.cons c (ih k a d (by simpa using h))
      _ |>.Perm (a :: c :: t2) := List.Perm.swap a c t2

theorem swapAt_length (l : List Nat) (x y : Nat) :
    (swapAt l x y).length = l.length := by
  simp [swapAt]

theorem swapAt_perm (l : List Nat) :
    ∀ (x y : Nat), x < l.length → y < l.length → (swapAt l x y).Perm l := by
  induction l with
  | nil => intro x y hx _; cases hx
  | cons a t ih =>
    intro x y hx hy
    cases x with
    | zero =>
      cases y with
      | zero => simp [swapAt]
      | succ m =>
        simp only [swapAt, List.getD_cons_zero, List.getD_cons_succ,
          List.set_cons_zero, List.set_cons_succ]
        exact cons_set_perm t m a 0 (by simpa using hy)
    | succ n =>
      cases y with
      | zero =>
        simp only [swapAt, List.getD_cons_zero, List.getD_cons_succ,
          List.set_cons_zero, List.set_cons_succ]
        exact cons_set_perm t n a 0 (by simpa using hx)
      | succ m =>
        simp only [swapAt, List.getD_cons_succ, List.set_cons_succ]
        exact List.Perm.cons a (ih n m (by simpa using hx) (by simpa using hy))

theorem swapAt_take13 (l : List Nat) (x y : Nat) (hx : 13 ≤ x) (hy : 13 ≤ y) :
    (swapAt l x y).take 13 = l.take 13 := by
  simp only [swapAt]
  rw [take_set_of_le _ _ _ _ hy, take_set_of_le _ _ _ _ hx]

theorem next31_range (r : JRand) : 0 ≤ (r.next 31).1 ∧ (r.next 31).1 < 2 ^ 31 := by
  simp only [JRand.next, int32OfNat]
  set s := (r.seed * 0x5DEECE66D + 0xB) % 2 ^ 48 with hs
  have hlt : s >>> (48 - 31) < 2 ^ 31 := by
    rw [Nat.shiftRight_eq_div_pow]
    have : s < 2 ^ 48 := Nat.mod_lt _ (by norm_num)
    omega
  have hmod : s >>> (48 - 31) % 2 ^ 32 = s >>> (48 - 31) :=
    Nat.mod_eq_of_lt (by omega)
  rw [hmod, if_pos hlt]
  constructor
  · exact Int.ofNat_nonneg _
  · exact_mod_cast hlt

theorem nextIntLoop_range : ∀ (fuel b u : Nat) (r : JRand), 1 ≤ b →
    0 ≤ (nextIntLoop fuel b u r).1 ∧ (nextIntLoop fuel b u r).1 < b := by
  intro fuel
  induction fuel with
  | zero =>
    intro b u r hb
    have hb0 : (0 : Int) < b := by exact_mod_cast hb
    simp only [nextIntLoop]
    constructor
    · simp
      exact Int.emod_nonneg _ (by omega)
    · simp
      exact Int.emod_lt_of_pos _ hb0
  | succ f ih =>
    intro b u r hb
    have hb0 : (0 : Int) < b := by exact_mod_cast hb
    simp only [nextIntLoop]
    split
    · constructor
      · simp
        exact Int.emod_nonneg _ (by omega)
      · simp
        exact Int.emod_lt_of_pos _ hb0
    · exact ih b _ _ hb

theorem nextIntBound_range (r : JRand) (b : Nat) (hb : 1 ≤ b) :
    0 ≤ (r.nextIntBound b).1 ∧ (r.nextIntBound b).1 < b := by
  obtain ⟨h0, h31⟩ := next31_range r
  simp only [JRand.nextIntBound]
  split
  · have hu : (r.next 31).1.toNat < 2 ^ 31 := by omega
    have hfin : (b * (r.next 31).1.toNat) >>> 31 < b := by
      rw [Nat.shiftRight_eq_div_pow]
      have hlt : b * (r.next 31).1.toNat < 2 ^ 31 * b := by
        calc b * (r.next 31).1.toNat < b * 2 ^ 31 :=
              Nat.mul_lt_mul_of_le_of_lt (Nat.le_refl b) hu (by omega)
        _ = 2 ^ 31 * b := Nat.mul_comm _ _
      exact Nat.div_lt_of_lt_mul hlt
    constructor <;> simp <;> omega
  · exact nextIntLoop_range 1000000 b _ _ hb

/-- The toNat of a draw nextInt(i + 2) is at most i + 1, so the shuffled
position j + 13 never exceeds i + 14. -/
theorem nextIntBound_toNat_lt (r : JRand) (b : Nat) (hb : 1 ≤ b) :
    ((r.nextIntBound b).1).toNat < b := by
  obtain ⟨h0, hlt⟩ := nextIntBound_range r b hb
  omega

/-- The shuffle touches only positions 13..(length-1): the 13-byte prefix
survives and the whole list is permuted. -/
theorem specShuffle_take_perm : ∀ (k : Nat) (r : JRand) (l : List Nat),
    k + 13 < l.length →
    (specShuffle k r l).take 13 = l.take 13 ∧ (specShuffle k r l).Perm l := by
  intro k
  induction k with
  | zero => intro r l _; exact ⟨rfl, List.Perm.refl l⟩
  | succ i ih =>
    intro r l hlen
    rcases hj : r.nextIntBound (i + 2) with ⟨j, r1⟩
    have hjlt : j.toNat < i + 2 := by
      have := nextIntBound_toNat_lt r (i + 2) (by omega)
      rw [hj] at this
      exact this
    simp only [specShuffle, hj]
    have hx : i + 1 + 13 < l.length := by omega
    have hy : j.toNat + 13 < l.length := by omega
    have hlen2 : i + 13 < (swapAt l (i + 1 + 13) (j.toNat + 13)).length := by
      rw [swapAt_length]; omega
    obtain ⟨ht, hp⟩ := ih r1 (swapAt l (i + 1 + 13) (j.toNat + 13)) hlen2
    constructor
    · rw [ht, swapAt_take13 l _ _ (by omega) (by omega)]
    · exact hp.trans (swapAt_perm l _ _ hx hy)

/-- The two-phase shuffle of the source (collect all (i, nextInt(i+1))
pairs, then swap) equals the spec's interleaved draw-and-swap loop. -/
theorem applyPairs_eq_specShuffle : ∀ (k : Nat) (r : JRand) (l : List Nat),
    applyPairs l (idxPairs k r).1 = specShuffle k r l := by
  intro k
  induction k with
  | zero => intro r l; rfl
  | succ i ih =>
    intro r l
    rcases hj : r.nextIntBound (i + 2) with ⟨j, r1⟩
    simp only [idxPairs, specShuffle, hj, applyPairs, List.foldl_cons]
    exact ih r1 (swapAt l (i + 1 + 13) (j.toNat + 13))

/-- With every variable-length field within its encodable bounds, the
serializer succeeds and its output starts with the 13-byte header: type
byte 118, public_id 0, big-endian rng_seed. -/
theorem serializeConnectRequest3_shape (pkt : ConnectRequest3) (cid seed ts av : Int)
    (h1 : pkt.ticket.length < 65536) (h2 : pkt.«alias».length < 65536)
    (h3 : pkt.pet_name.length < 65536) (h4 : pkt.pet_name2.length < 65536)
    (h5 : ¬ pkt.alias_colors.values.length > 2 ^ (8 * pkt.alias_colors.size) - 1)
    (h6 : ¬ pkt.level_colors.values.length > 2 ^ (8 * pkt.level_colors.size) - 1)
    (h7 : ¬ pkt.sc_bits.values.length > 2 ^ (8 * pkt.sc_bits.size) - 1) :
    ∃ rest : List Nat,
      serializeConnectRequest3 pkt cid seed ts av =
        some (write_int8 connectRequest3Type ++ (write_int32 0 ++ (write_int64 seed ++ rest))) ∧
      1 ≤ rest.length := by
  have e1 : pkt.ticket.encode =
      some (natToBytesBE 2 pkt.ticket.length ++ utf8Encode pkt.ticket.value) := by
    simp [MUTF8String.encode, h1]
  have e2 : pkt.«alias».encode =
      some (natToBytesBE 2 pkt.«alias».length ++ utf8Encode pkt.«alias».value) := by
    simp [MUTF8String.encode, h2]
  have e3 : pkt.pet_name.encode =
      some (natToBytesBE 2 pkt.pet_name.length ++ utf8Encode pkt.pet_name.value) := by
    simp [MUTF8String.encode, h3]
  have e4 : pkt.pet_name2.encode =
      some (natToBytesBE 2 pkt.pet_name2.length ++ utf8Encode pkt.pet_name2.value) := by
    simp [MUTF8String.encode, h4]
  have e5 : pkt.alias_colors.encode =
      some (natToBytesBE pkt.alias_colors.size pkt.alias_colors.values.length ++
        pkt.alias_colors.values.map (fun v => (v % 256 : Int).toNat)) := by
    simp [VariableLengthArray.encode, h5]
  have e6 : pkt.level_colors.encode =
      some (natToBytesBE pkt.level_colors.size pkt.level_colors.values.length ++
        pkt.level_colors.values.map (fun v => (v % 256 : Int).toNat)) := by
    simp [VariableLengthArray.encode, h6]
  have e7 : pkt.sc_bits.encode =
      some (natToBytesBE pkt.sc_bits.size pkt.sc_bits.values.length ++
        pkt.sc_bits.values.map (fun v => (v % 256 : Int).toNat)) := by
    simp [VariableLengthArray.encode, h7]
  refine ⟨write_int16 av ++ write_int32 cid ++ write_int8 pkt.game_mode
      ++ write_int8 pkt.game_difficulty ++ write_int32 pkt.game_id
      ++ (natToBytesBE 2 pkt.ticket.length ++ utf8Encode pkt.ticket.value)
      ++ write_int8 pkt.online_mode ++ write_bool pkt.mayhem
      ++ write_int16 pkt.skin1 ++ write_int8 pkt.eject_skin
      ++ (natToBytesBE 2 pkt.«alias».length ++ utf8Encode pkt.«alias».value)
      ++ write_int32 pkt.custom_skin
      ++ (natToBytesBE pkt.alias_colors.size pkt.alias_colors.values.length ++
        pkt.alias_colors.values.map (fun v => (v % 256 : Int).toNat))
      ++ write_int8 pkt.pet_id ++ write_int32 pkt.blob_color
      ++ (natToBytesBE 2 pkt.pet_name.length ++ utf8Encode pkt.pet_name.value)
      ++ write_int8 pkt.hat_type ++ write_int32 pkt.custom_pet
      ++ write_int8 pkt.halo_type ++ write_int8 pkt.pet_id2
      ++ (natToBytesBE 2 pkt.pet_name2.length ++ utf8Encode pkt.pet_name2.value)
      ++ write_int32 pkt.custom_pet2 ++ write_int32 pkt.custom_particle
      ++ write_int8 pkt.particle_type ++ write_int8 pkt.alias_font
      ++ (natToBytesBE pkt.level_colors.size pkt.level_colors.values.length ++
        pkt.level_colors.values.map (fun v => (v % 256 : Int).toNat))
      ++ write_int8 pkt.alias_anim ++ write_int16 pkt.skin2
      ++ write_int16 pkt.skin_interpolation_rate.compress
      ++ write_int32 pkt.custom_skin2 ++ write_int64 ts
      ++ (natToBytesBE pkt.sc_bits.size pkt.sc_bits.values.length ++
        pkt.sc_bits.values.map (fun v => (v % 256 : Int).toNat)), ?_, ?_⟩
  · simp only [serializeConnectRequest3, e1, e2, e3, e4, e5, e6, e7,
      Option.bind_eq_bind, Option.some_bind, Option.pure_def, Option.some.injEq,
      List.append_assoc]
  · simp only [List.length_append, write_int16, writeIntBE, natToBytesBE_length]
    omega

theorem writeIntBE_length (k : Nat) (v : Int) : (writeIntBE k v).length = k := by
  simp [writeIntBE, natToBytesBE_length]

/-- Everything C1 and C10 need about ConnectRequest3.write: the
serializer succeeds, write runs the two-phase shuffle (equal to the
spec's interleaved loop), the three-part header check passes, the first 13
bytes are preserved, and the shuffled output is a permutation of the
serialized bytes. -/
theorem connect_write_core (pkt : ConnectRequest3) (cid seed ts av : Int)
    (h1 : pkt.ticket.length < 65536) (h2 : pkt.«alias».length < 65536)
    (h3 : pkt.pet_name.length < 65536) (h4 : pkt.pet_name2.length < 65536)
    (h5 : ¬ pkt.alias_colors.values.length > 2 ^ (8 * pkt.alias_colors.size) - 1)
    (h6 : ¬ pkt.level_colors.values.length > 2 ^ (8 * pkt.level_colors.size) - 1)
    (h7 : ¬ pkt.sc_bits.values.length > 2 ^ (8 * pkt.sc_bits.size) - 1) :
    ∃ ser, serializeConnectRequest3 pkt cid seed ts av = some ser ∧
      14 ≤ ser.length ∧
      ser.take 13 = 118 :: 0 :: 0 :: 0 :: 0 :: write_int64 seed ∧
      ConnectRequest3.write pkt cid seed ts av =
        .ok (specShuffle (ser.length - 14) (JRand.ofSeed seed) ser) ∧
      (specShuffle (ser.length - 14) (JRand.ofSeed seed) ser).take 13 = ser.take 13 ∧
      (specShuffle (ser.length - 14) (JRand.ofSeed seed) ser).Perm ser := by
  obtain ⟨rest, hser, hrest⟩ :=
    serializeConnectRequest3_shape pkt cid seed ts av h1 h2 h3 h4 h5 h6 h7
  have h8 : write_int8 connectRequest3Type = [118] := rfl
  have h32 : write_int32 0 = [0, 0, 0, 0] := rfl
  have h64len : (write_int64 seed).length = 8 := writeIntBE_length 8 seed
  set ser := write_int8 connectRequest3Type ++ (write_int32 0 ++ (write_int64 seed ++ rest))
    with hserdef
  have hlen : ser.length = 13 + rest.length := by
    simp [hserdef, h8, h32, List.length_append, h64len]
    omega
  have hlen14 : 14 ≤ ser.length := by omega
  have hkgood : (ser.length - 14) + 13 < ser.length := by omega
  have hheadlen : (118 :: 0 :: 0 :: 0 :: 0 :: write_int64 seed).length = 13 := by
    simp [h64len]
  have hser2 : ser = (118 :: 0 :: 0 :: 0 :: 0 :: write_int64 seed) ++ rest := by
    simp [hserdef, h8, h32]
  have htake : ser.take 13 = 118 :: 0 :: 0 :: 0 :: 0 :: write_int64 seed := by
    rw [hser2, List.take_left' hheadlen]
  obtain ⟨htk, hperm⟩ := specShuffle_take_perm (ser.length - 14) (JRand.ofSeed seed) ser hkgood
  set sh := specShuffle (ser.length - 14) (JRand.ofSeed seed) ser with hshdef
  have hshtake : sh.take 13 = 118 :: 0 :: 0 :: 0 :: 0 :: write_int64 seed := by
    rw [htk, htake]
  have hshsplit : sh = 118 :: 0 :: 0 :: 0 :: 0 :: (write_int64 seed ++ sh.drop 13) := by
    conv_lhs => rw [← List.take_append_drop 13 sh]
    rw [hshtake]
    simp
  have hc1 : sh.getD 0 0 = 118 := by rw [hshsplit]; rfl
  have hc2 : (sh.drop 1).take 4 = [0, 0, 0, 0] := by
    rw [hshsplit]; rfl
  have hc3 : (sh.drop 5).take 8 = write_int64 seed := by
    conv_lhs => rw [hshsplit]
    simp only [List.drop_succ_cons, List.drop_zero]
    exact List.take_left' h64len
  have happ : applyPairs ser (idxPairs (ser.length - 14) (JRand.ofSeed seed)).1 = sh :=
    applyPairs_eq_specShuffle (ser.length - 14) (JRand.ofSeed seed) ser
  have hwrite : ConnectRequest3.write pkt cid seed ts av = .ok sh := by
    simp only [ConnectRequest3.write, hser, happ]
    rw [if_neg (show ¬ (sh.getD 0 0 ≠ 118) by rw [hc1]; simp)]
    rw [if_neg (show ¬ ((sh.drop 1).take 4 ≠ [0, 0, 0, 0]) by rw [hc2]; simp)]
    rw [if_neg (show ¬ ((sh.drop 5).take 8 ≠ write_int64 seed) by rw [hc3]; simp)]
  exact ⟨ser, hser, hlen14, htake, hwrite, by rw [htk], hperm⟩

theorem header_slices (sh : List Nat) (seed : Int)
    (h : sh.take 13 = 118 :: 0 :: 0 :: 0 :: 0 :: write_int64 seed) :
    sh.getD 0 0 = 118 ∧ (sh.drop 1).take 4 = [0, 0, 0, 0] ∧
    (sh.drop 5).take 8 = write_int64 seed := by
  have h64len : (write_int64 seed).length = 8 := writeIntBE_length 8 seed
  have hsplit : sh = 118 :: 0 :: 0 :: 0 :: 0 :: (write_int64 seed ++ sh.drop 13) := by
    conv_lhs => rw [← List.take_append_drop 13 sh]
    rw [h]
    simp
  refine ⟨by rw [hsplit]; rfl, by rw [hsplit]; rfl, ?_⟩
  conv_lhs => rw [hsplit]
  simp only [List.drop_succ_cons, List.drop_zero]
  exact List.take_left' h64len

/-- C1: for every encodable CONNECT_REQUEST_3 packet, write succeeds and
returns exactly the serialized bytes permuted by the spec's swap
sequence — for i from n-14 down to 1, j = nextInt(i+1) from the
Java-compatible PRNG seeded with rng_seed, swapping positions i+13 and
j+13 — leaving the first 13 bytes equal to the type byte 118, four zero
bytes and the big-endian rng_seed, and permuting only the suffix from
offset 13 (the corruption ValueError is raised exactly when the
header check fails, which it never does here). -/
theorem connect_write_shuffles_suffix_only (pkt : ConnectRequest3)
    (cid seed ts av : Int)
    (h1 : pkt.ticket.length < 65536) (h2 : pkt.«alias».length < 65536)
    (h3 : pkt.pet_name.length < 65536) (h4 : pkt.pet_name2.length < 65536)
    (h5 : ¬ pkt.alias_colors.values.length > 2 ^ (8 * pkt.alias_colors.size) - 1)
    (h6 : ¬ pkt.level_colors.values.length > 2 ^ (8 * pkt.level_colors.size) - 1)
    (h7 : ¬ pkt.sc_bits.values.length > 2 ^ (8 * pkt.sc_bits.size) - 1) :
    ∃ ser, serializeConnectRequest3 pkt cid seed ts av = some ser ∧
      ConnectRequest3.write pkt cid seed ts av =
        .ok (specShuffle (ser.length - 14) (JRand.ofSeed seed) ser) ∧
      (specShuffle (ser.length - 14) (JRand.ofSeed seed) ser).take 13 =
        118 :: 0 :: 0 :: 0 :: 0 :: write_int64 seed ∧
      ((specShuffle (ser.length - 14) (JRand.ofSeed seed) ser).drop 13).Perm
        (ser.drop 13) := by
  obtain ⟨ser, hser, hlen14, htake, hwrite, htkeq, hperm⟩ :=
    connect_write_core pkt cid seed ts av h1 h2 h3 h4 h5 h6 h7
  refine ⟨ser, hser, hwrite, by rw [htkeq, htake], ?_⟩
  have hp2 : (ser.take 13 ++
      (specShuffle (ser.length - 14) (JRand.ofSeed seed) ser).drop 13).Perm
      (ser.take 13 ++ ser.drop 13) := by
    conv_lhs => rw [← htkeq, List.take_append_drop]
    conv_rhs => rw [List.take_append_drop]
    exact hperm
  exact (List.perm_append_left_iff (ser.take 13)).mp hp2

/-- C10: the shuffle swaps only positions at offset 13 or beyond, so for
every encodable packet the three post-shuffle header checks pass and the
"Packet header has been corrupted" ValueError branches are unreachable:
write returns ok, with type byte 118 at offset 0, four zero bytes at
offsets 1..4 and the big-endian rng_seed at offsets 5..12. -/
theorem connect_write_header_checks_pass (pkt : ConnectRequest3)
    (cid seed ts av : Int)
    (h1 : pkt.ticket.length < 65536) (h2 : pkt.«alias».length < 65536)
    (h3 : pkt.pet_name.length < 65536) (h4 : pkt.pet_name2.length < 65536)
    (h5 : ¬ pkt.alias_colors.values.length > 2 ^ (8 * pkt.alias_colors.size) - 1)
    (h6 : ¬ pkt.level_colors.values.length > 2 ^ (8 * pkt.level_colors.size) - 1)
    (h7 : ¬ pkt.sc_bits.values.length > 2 ^ (8 * pkt.sc_bits.size) - 1) :
    ∃ out, ConnectRequest3.write pkt cid seed ts av = Except.ok out ∧
      out.getD 0 0 = 118 ∧ (out.drop 1).take 4 = [0, 0, 0, 0] ∧
      (out.drop 5).take 8 = write_int64 seed := by
  obtain ⟨ser, hser, hlen14, htake, hwrite, htkeq, hperm⟩ :=
    connect_write_core pkt cid seed ts av h1 h2 h3 h4 h5 h6 h7
  obtain ⟨hc1, hc2, hc3⟩ := header_slices _ seed (by rw [htkeq, htake])
  exact ⟨_, hwrite, hc1, hc2, hc3⟩

/-- A concrete CONNECT_REQUEST_3 packet with every field encodable. -/
def sampleConnectRequest3 : ConnectRequest3 :=
  { game_mode := 0, game_difficulty := 0, game_id := 0,
    ticket := MUTF8String.from_py_string [], online_mode := 0, mayhem := false,
    skin1 := 0, eject_skin := 0, «alias» := MUTF8String.from_py_string [65],
    custom_skin := 0, alias_colors := ⟨1, []⟩, pet_id := 0, blob_color := 0,
    pet_name := MUTF8String.from_py_string [], hat_type := 0, custom_pet := 0,
    halo_type := 0, pet_id2 := 0, pet_name2 := MUTF8String.from_py_string [],
    custom_pet2 := 0, custom_particle := 0, particle_type := 0, alias_font := 0,
    level_colors := ⟨1, [1, 2, 3]⟩, alias_anim := 0, skin2 := 0,
    skin_interpolation_rate := ⟨0, 60⟩, custom_skin2 := 0, sc_bits := ⟨2, []⟩ }

/-- C1 witness: the theorem applied at the concrete packet, client id 7,
rng seed 99, timestamp 12345, game version 1603. -/
theorem connect_write_shuffles_suffix_only_witness :
    ∃ ser, serializeConnectRequest3 sampleConnectRequest3 7 99 12345 1603 = some ser ∧
      ConnectRequest3.write sampleConnectRequest3 7 99 12345 1603 =
        .ok (specShuffle (ser.length - 14) (JRand.ofSeed 99) ser) ∧
      (specShuffle (ser.length - 14) (JRand.ofSeed 99) ser).take 13 =
        118 :: 0 :: 0 :: 0 :: 0 :: write_int64 99 ∧
      ((specShuffle (ser.length - 14) (JRand.ofSeed 99) ser).drop 13).Perm
        (ser.drop 13) :=
  connect_write_shuffles_suffix_only sampleConnectRequest3 7 99 12345 1603
    (by decide) (by decide) (by decide) (by decide) (by decide) (by decide) (by decide)

/-- C10 witness: the theorem applied at the same concrete packet. -/
theorem connect_write_header_checks_pass_witness :
    ∃ out, ConnectRequest3.write sampleConnectRequest3 7 99 12345 1603 = Except.ok out ∧
      out.getD 0 0 = 118 ∧ (out.drop 1).take 4 = [0, 0, 0, 0] ∧
      (out.drop 5).take 8 = write_int64 99 :=
  connect_write_header_checks_pass sampleConnectRequest3 7 99 12345 1603
    (by decide) (by decide) (by decide) (by decide) (by decide) (by decide) (by decide)
